import Mathlib

/-!
# The SLURM runjob plugin (`src/plugins/select/bluegene/runjob_plugin.cc`)

A shallow embedding of the three `Plugin::execute` callbacks and of the
plugin teardown, followed by theorems about them.

Conventions of the embedding.

* The global `runjob_list` is an `Option (List runjob_job_t)`: `none` is the
  `NULL` pointer (the list after `Plugin::~Plugin`), `some l` an open list
  whose head is the oldest entry (`list_append` adds at the tail,
  `list_next` walks from the head).
* The resource manager is an explicit value of type `Manager`: what
  `slurm_get_job_steps` answers for a (job id, step id) pair, and for each
  step what every `slurm_get_select_jobinfo` fetch answers. `none` is a
  non-zero return code.
* `std::cerr` is a list of messages, one constructor of `Msg` for each
  output statement of the source.
* `std::string` values are Lean strings without an embedded NUL; the length
  of a `std::string` is its byte length (`String.utf8ByteSize`).
* Locks are not modelled: every callback runs as one atomic step.
-/

namespace RunjobPlugin

/-! ## Constants -/

/-- Modelled from the spec: the sentinel `NO_VAL` is declared in `slurm.h`,
which is not part of the sources; its value is the 32-bit `0xfffffffe`. -/
def NO_VAL : Nat := 0xfffffffe

/-- Modelled from the spec: `Dimension::NodeDims` is declared in
`bgsched/Dimension.h`, which is not part of the sources; the spec fixes the
vectors to the topology rank, its examples have five components and the
termination callback reads the five coordinates a, b, c, d, e. -/
def NodeDims : Nat := 5

/-- Modelled from the spec: `HIGHEST_DIMENSIONS` is declared in `slurm.h`,
which is not part of the sources; the constructor asserts
`HIGHEST_DIMENSIONS >= Dimension::NodeDims`. -/
def HIGHEST_DIMENSIONS : Nat := 5

/-- The local `looking_for` of `Plugin::execute(Verify&)`. -/
def looking_for : Nat := 2

/-! ## The C library: `atoi` -/

/-- The `isspace` of the C locale: space, and `\t \n \v \f \r`. -/
def isspace (c : Char) : Bool :=
  c.toNat == 32 || (9 ≤ c.toNat && c.toNat ≤ 13)

/-- The `isdigit` of C. -/
def isdigit (c : Char) : Bool :=
  48 ≤ c.toNat && c.toNat ≤ 57

/-- Drop the leading white space. -/
def skip_space : List Char → List Char
  | [] => []
  | c :: cs => if isspace c then skip_space cs else c :: cs

/-- Accumulate the leading decimal digits. -/
def strtol_digits : List Char → Nat → Nat
  | [], acc => acc
  | c :: cs, acc =>
    if isdigit c then strtol_digits cs (acc * 10 + (c.toNat - 48)) else acc

def LONG_MAX : Int := 9223372036854775807

def LONG_MIN : Int := -9223372036854775808

/-- The function `strtol(nptr, NULL, 10)` with a 64-bit `long`: white space,
an optional sign, decimal digits up to the first other character; the value
saturates at `LONG_MIN` and `LONG_MAX`. -/
def strtol (s : List Char) : Int :=
  match skip_space s with
  | [] => 0
  | c :: cs =>
    if c.toNat = 45 then max LONG_MIN (-(strtol_digits cs 0 : Int))
    else if c.toNat = 43 then min LONG_MAX (strtol_digits cs 0 : Int)
    else min LONG_MAX (strtol_digits (c :: cs) 0 : Int)

/-- Conversion of a `long` to a 32-bit `int` (two's complement). -/
def to_int32 (x : Int) : Int :=
  (x + 2147483648) % 4294967296 - 2147483648

/-- Conversion of an `int` to `uint32_t`. -/
def to_uint32 (x : Int) : Nat :=
  (x % 4294967296).toNat

/-- The function `atoi` as glibc defines it, `(int) strtol(nptr, NULL, 10)`.
(The C standard leaves the result undefined when the value is out of
range.) -/
def atoi (s : String) : Int :=
  to_int32 (strtol s.toList)

/-! ## Data -/

/-- One `bgsched::runjob::Environment`: `getKey()` and `getValue()`. -/
structure Environment where
  key : String
  value : String
deriving DecidableEq, Repr

/-- The registry entry `runjob_job_t`. -/
structure runjob_job_t where
  bg_block_id : String
  pid : Int
  job_id : Nat
  step_id : Nat
  total_cnodes : String
deriving DecidableEq, Repr

/-- The buffer `uint16_t tmp_uint16[HIGHEST_DIMENSIONS]` after a fetch that
succeeded. -/
structure Uint16Buf where
  vals : List Nat
  size_eq : vals.length = HIGHEST_DIMENSIONS
  is_u16 : ∀ x ∈ vals, x < 65536

/-- The `select_jobinfo` of a step, as the plugin sees it through
`slurm_get_select_jobinfo` (a call into the manager, taken as a parameter).
Each field is the answer to one fetch: `none` when the call returns
non-zero, `some x` when it returns zero and stores `x`. The fields are, in
the order of the source, `SELECT_JOBDATA_BLOCK_ID`, `SELECT_JOBDATA_IONODES`,
`SELECT_JOBDATA_BLOCK_NODE_CNT`, `SELECT_JOBDATA_NODE_CNT`,
`SELECT_JOBDATA_GEOMETRY` and `SELECT_JOBDATA_CONN_TYPE`. The two counts are
given as they land in the `int` locals `block_cnode_cnt` and
`step_cnode_cnt`. -/
structure select_jobinfo_t where
  block_id : Option String
  ionodes : Option String
  block_node_cnt : Option Int
  node_cnt : Option Int
  geometry : Option Uint16Buf
  conn_type : Option Uint16Buf

/-- The fields of `job_step_info_t` that the plugin reads. -/
structure job_step_info_t where
  user_id : Nat
  select_jobinfo : select_jobinfo_t

/-- The message `job_step_info_response_msg_t`: `job_step_count` is the
length of `job_steps`. -/
structure job_step_info_response_msg_t where
  job_steps : List job_step_info_t

/-- The resource manager: `slurm_get_job_steps(0, job_id, step_id, &resp,
SHOW_ALL)` returns non-zero (`none`) or fills `resp`. -/
structure Manager where
  slurm_get_job_steps : Nat → Nat → Option job_step_info_response_msg_t

/-- The object `bgsched::runjob::Verify`: the request (`pid`, `user().uid()`,
`envs()`) and the fields of the decision that the plugin writes (`block`,
`corner`, `shape`). `none` is a corner or shape that was never set. -/
structure Verify where
  pid : Int
  uid : Nat
  envs : List Environment
  block : String
  corner : Option (List Nat)
  shape : Option (List Nat)
deriving DecidableEq, Repr

/-- One `bgsched::runjob::Node` of `software_error_nodes()`. -/
structure Node where
  location : String
  a : Nat
  b : Nat
  c : Nat
  d : Nat
  e : Nat
deriving DecidableEq, Repr

/-- The object `bgsched::runjob::Terminated`. -/
structure Terminated where
  pid : Int
  kill_timeout : Bool
  software_error_nodes : List Node
  message : String
deriving DecidableEq, Repr

/-- The lines written to `std::cerr`, one constructor for each output
statement. -/
inductive Msg where
  | get_job_steps_error
  | no_steps_match (job_id step_id : Nat)
  | wrong_uid (job_id step_id user_id uid : Nat)
  | cant_get_block_id
  | cant_get_cnode_string
  | cant_get_block_node_count
  | cant_get_step_node_count
  | missing_counts (step block : Int)
  | cant_get_geo
  | cant_get_start_loc
  | no_corner
  | no_shape
  | outside_of_slurm
  | couldnt_find_job (pid : Int)
  | had_kill_timeout (job_id step_id : Nat)
  | nodes_fail (job_id step_id count : Nat)
  | node_line (location : String) (a b c d e : Nat) (tmp_char : String)
  | had_message (job_id step_id : Nat) (message total_cnodes : String)
deriving DecidableEq, Repr

/-- What a verify callback leaves behind: the `Verify` object, whether
`verify.deny_job(DenyJob::Yes)` was called (the job is allowed when it was
not), the global list and the lines written to `std::cerr`. -/
structure Outcome where
  verify : Verify
  deny_job : Bool
  runjob_list : Option (List runjob_job_t)
  stderr : List Msg
deriving DecidableEq, Repr

/-! ## `Plugin::execute(bgsched::runjob::Verify&)` -/

/-- The `BOOST_FOREACH` over `verify.envs()`: the arguments are the current
`job_id`, `step_id` and `found`; the loop breaks as soon as `found` equals
`looking_for`. -/
def scan_envs : List Environment → Nat → Nat → Nat → Nat × Nat × Nat
  | [], job_id, step_id, found => (job_id, step_id, found)
  | env_var :: rest, job_id, step_id, found =>
    let st : Nat × Nat × Nat :=
      if env_var.key = "SLURM_JOB_ID" then
        (to_uint32 (atoi env_var.value), step_id, found + 1)
      else if env_var.key = "SLURM_STEP_ID" then
        (job_id, to_uint32 (atoi env_var.value), found + 1)
      else (job_id, step_id, found)
    if st.2.2 = looking_for then st else scan_envs rest st.1 st.2.1 st.2.2

/-- An entry that the scan counts: its key is one of the two looked for. -/
def is_id_key (env_var : Environment) : Bool :=
  env_var.key = "SLURM_JOB_ID" || env_var.key = "SLURM_STEP_ID"

/-- The label `deny_job`: the entry under construction is destroyed, the
list is not touched and the job is denied. -/
def deny_job (verify : Verify) (runjob_list : Option (List runjob_job_t))
    (stderr : List Msg) : Outcome :=
  ⟨verify, true, runjob_list, stderr⟩

/-- The loop `for (dim=0; dim<Dimension::NodeDims; dim++) arr[dim] =
tmp_uint16[dim];`. -/
def copy_dims (arr : List Nat) (tmp_uint16 : Uint16Buf) : List Nat :=
  (List.range NodeDims).foldl (fun a dim => a.set dim (tmp_uint16.vals.getD dim 0)) arr

/-- The arrays `geo` and `start_coords` after `geo[0] = NO_VAL;`: the other
cells are not initialised by the source and are written before they are
read; they are zero here. -/
def unset_dims : List Nat :=
  NO_VAL :: List.replicate (NodeDims - 1) 0

/-- Lines 319 to 322: `if (runjob_list) list_append(runjob_list,
runjob_job);`. -/
def append_if_open (runjob_list : Option (List runjob_job_t)) (runjob_job : runjob_job_t) :
    Option (List runjob_job_t) :=
  match runjob_list with
  | some l => some (l ++ [runjob_job])
  | none => none

/-- Lines 290 to 325: the test of `verify.block()`, then the entry gets
its pid and is appended to the list when the list is not `NULL`. -/
def verify_from_block_check (verify : Verify) (runjob_list : Option (List runjob_job_t))
    (job_id step_id : Nat) (bg_block_id total_cnodes : String) : Outcome :=
  if verify.block.isEmpty || verify.block.utf8ByteSize < 3 then
    deny_job verify runjob_list [Msg.outside_of_slurm]
  else
    ⟨verify, false,
     append_if_open runjob_list ⟨bg_block_id, verify.pid, job_id, step_id, total_cnodes⟩,
     []⟩

/-- Lines 283 to 288, then the rest: the shape is set from `geo` for a
sub-block job whose `geo[0]` is not `NO_VAL`. -/
def verify_from_shape (verify : Verify) (runjob_list : Option (List runjob_job_t))
    (job_id step_id : Nat) (bg_block_id total_cnodes : String)
    (sub_block_job : Bool) (geo : List Nat) : Outcome :=
  if sub_block_job && geo.getD 0 0 != NO_VAL then
    verify_from_block_check { verify with shape := some geo } runjob_list
      job_id step_id bg_block_id total_cnodes
  else if sub_block_job then
    deny_job verify runjob_list [Msg.no_shape]
  else
    verify_from_block_check verify runjob_list job_id step_id bg_block_id total_cnodes

/-- Lines 276 to 281, then the rest: the corner is set from `start_coords`
for a sub-block job whose `start_coords[0]` is not `NO_VAL`. -/
def verify_from_corner (verify : Verify) (runjob_list : Option (List runjob_job_t))
    (job_id step_id : Nat) (bg_block_id total_cnodes : String)
    (sub_block_job : Bool) (geo start_coords : List Nat) : Outcome :=
  if sub_block_job && start_coords.getD 0 0 != NO_VAL then
    verify_from_shape { verify with corner := some start_coords } runjob_list
      job_id step_id bg_block_id total_cnodes sub_block_job geo
  else if sub_block_job then
    deny_job verify runjob_list [Msg.no_corner]
  else
    verify_from_shape verify runjob_list job_id step_id bg_block_id total_cnodes
      sub_block_job geo

/-- Lines 234 to 274, then the rest: the two counts are tested, and for a
step smaller than its block the geometry and the start location are fetched
and copied into `geo` and `start_coords`. -/
def verify_from_counts (verify : Verify) (runjob_list : Option (List runjob_job_t))
    (job_id step_id : Nat) (bg_block_id total_cnodes : String)
    (select_jobinfo : select_jobinfo_t) (block_cnode_cnt step_cnode_cnt : Int) : Outcome :=
  if step_cnode_cnt = 0 || block_cnode_cnt = 0 then
    deny_job verify runjob_list [Msg.missing_counts step_cnode_cnt block_cnode_cnt]
  else if step_cnode_cnt < block_cnode_cnt then
    match select_jobinfo.geometry with
    | none => deny_job verify runjob_list [Msg.cant_get_geo]
    | some tmp_geo =>
      match select_jobinfo.conn_type with
      | none => deny_job verify runjob_list [Msg.cant_get_start_loc]
      | some tmp_start =>
        verify_from_corner verify runjob_list job_id step_id bg_block_id total_cnodes
          true (copy_dims unset_dims tmp_geo) (copy_dims unset_dims tmp_start)
  else
    verify_from_corner verify runjob_list job_id step_id bg_block_id total_cnodes
      false unset_dims unset_dims

/-- Lines 196 to 232, then the rest: the owner of the step is compared with
the user of the request, then the block id (stored in `verify.block`), the
cnode string and the two counts are fetched. -/
def verify_from_step (verify : Verify) (runjob_list : Option (List runjob_job_t))
    (job_id step_id : Nat) (step_ptr : job_step_info_t) : Outcome :=
  if verify.uid ≠ step_ptr.user_id then
    deny_job verify runjob_list [Msg.wrong_uid job_id step_id step_ptr.user_id verify.uid]
  else
    match step_ptr.select_jobinfo.block_id with
    | none => deny_job verify runjob_list [Msg.cant_get_block_id]
    | some bg_block_id =>
      let verify1 := { verify with block := bg_block_id }
      match step_ptr.select_jobinfo.ionodes with
      | none => deny_job verify1 runjob_list [Msg.cant_get_cnode_string]
      | some total_cnodes =>
        match step_ptr.select_jobinfo.block_node_cnt with
        | none => deny_job verify1 runjob_list [Msg.cant_get_block_node_count]
        | some block_cnode_cnt =>
          match step_ptr.select_jobinfo.node_cnt with
          | none => deny_job verify1 runjob_list [Msg.cant_get_step_node_count]
          | some step_cnode_cnt =>
            verify_from_counts verify1 runjob_list job_id step_id bg_block_id total_cnodes
              step_ptr.select_jobinfo block_cnode_cnt step_cnode_cnt

/-- The callback `Plugin::execute(bgsched::runjob::Verify&)`. -/
def execute_verify (mgr : Manager) (runjob_list : Option (List runjob_job_t))
    (verify : Verify) : Outcome :=
  match scan_envs verify.envs NO_VAL NO_VAL 0 with
  | (job_id, step_id, found) =>
    if found ≠ looking_for then deny_job verify runjob_list []
    else
      match mgr.slurm_get_job_steps job_id step_id with
      | none => deny_job verify runjob_list [Msg.get_job_steps_error]
      | some step_resp =>
        match step_resp.job_steps with
        | [] => deny_job verify runjob_list [Msg.no_steps_match job_id step_id]
        | step_ptr :: _ => verify_from_step verify runjob_list job_id step_id step_ptr

/-! ## `Plugin::execute(const bgsched::runjob::Terminated&)` and teardown -/

/-- The iterator loop of lines 357 to 363: the first entry whose pid is
`pid` is taken out of the list (`list_remove`) and returned; `none` is the
`NULL` that `list_next` returns at the end of the list. -/
def list_remove_pid (pid : Int) : List runjob_job_t → Option runjob_job_t × List runjob_job_t
  | [] => (none, [])
  | runjob_job :: rest =>
    if runjob_job.pid = pid then (some runjob_job, rest)
    else ((list_remove_pid pid rest).1, runjob_job :: (list_remove_pid pid rest).2)

/-- The size of the buffer `char tmp_char[6]` of the termination callback. -/
def tmp_char_size : Nat := 6

/-- The call `sprintf(tmp_char, "%u%u%u%u%u", a, b, c, d, e)`: the text that
is formatted. -/
def sprintf_coords (i : Node) : String :=
  toString i.a ++ toString i.b ++ toString i.c ++ toString i.d ++ toString i.e

/-- Whether the call `sprintf(tmp_char, ...)` stays inside `tmp_char`: the
formatted text and its terminating NUL take at most `tmp_char_size` bytes. -/
def sprintf_fits (i : Node) : Bool :=
  (sprintf_coords i).utf8ByteSize + 1 ≤ tmp_char_size

/-- The `BOOST_FOREACH` over the failed nodes (lines 381 to 391): one line
for each node, up to the first node whose text does not fit `tmp_char`.
There `sprintf` writes past the end of the buffer: the behaviour of the
program is undefined from that point on, the flag is set, and the lines are
those written before that point. -/
def node_lines : List Node → List Msg × Bool
  | [] => ([], false)
  | i :: rest =>
    if sprintf_fits i then
      (Msg.node_line i.location i.a i.b i.c i.d i.e (sprintf_coords i) :: (node_lines rest).1,
       (node_lines rest).2)
    else ([], true)

/-- What a termination callback leaves behind: the global list (the entry is
taken out of it before any line is written), the lines written to
`std::cerr`, and whether `sprintf` wrote past the end of `tmp_char`; when it
did, the lines are those written before and nothing is said of what the
program does afterwards. -/
structure TermOutcome where
  runjob_list : Option (List runjob_job_t)
  stderr : List Msg
  overflow : Bool
deriving DecidableEq, Repr

/-- Lines 368 to 397: the diagnostics for the entry that the loop found
(`none` when it found nothing), with the flag of `node_lines`; `list_open`
is the test `if (runjob_list)`. -/
def terminated_diagnostics (list_open : Bool) (runjob_job : Option runjob_job_t)
    (data : Terminated) : List Msg × Bool :=
  match runjob_job with
  | none => (if list_open then [Msg.couldnt_find_job data.pid] else [], false)
  | some job =>
    if data.kill_timeout then ([Msg.had_kill_timeout job.job_id job.step_id], false)
    else if !data.software_error_nodes.isEmpty then
      (Msg.nodes_fail job.job_id job.step_id data.software_error_nodes.length ::
        (node_lines data.software_error_nodes).1,
       (node_lines data.software_error_nodes).2)
    else if !data.message.isEmpty then
      ([Msg.had_message job.job_id job.step_id data.message job.total_cnodes], false)
    else ([], false)

/-- The callback `Plugin::execute(const bgsched::runjob::Terminated&)`. -/
def execute_terminated (runjob_list : Option (List runjob_job_t)) (data : Terminated) :
    TermOutcome :=
  match runjob_list with
  | none =>
    ⟨none, (terminated_diagnostics false none data).1,
     (terminated_diagnostics false none data).2⟩
  | some l =>
    ⟨some (list_remove_pid data.pid l).2,
     (terminated_diagnostics true (list_remove_pid data.pid l).1 data).1,
     (terminated_diagnostics true (list_remove_pid data.pid l).1 data).2⟩

/-- The destructor `Plugin::~Plugin`: the list is destroyed with its entries
and the pointer is set to `NULL`. -/
def plugin_destroy (_runjob_list : Option (List runjob_job_t)) : Option (List runjob_job_t) :=
  none

/-- The callback `Plugin::execute(const bgsched::runjob::Started&)`: nothing
but the lock is taken. -/
def execute_started (runjob_list : Option (List runjob_job_t)) : Option (List runjob_job_t) :=
  runjob_list

/-! ## Sample inputs -/

/-- A buffer of five 16-bit values, all `x`. -/
def buf_all (x : Nat) (h : x < 65536) : Uint16Buf :=
  ⟨[x, x, x, x, x], rfl, by
    intro y hy
    simp only [List.mem_cons, List.mem_singleton, List.not_mem_nil, or_false, or_self] at hy
    omega⟩

/-- A step owned by `user_id` on block `block_id` with the given counts and
sub-block fields. -/
def sample_step (user_id : Nat) (block_id : String) (block_cnt step_cnt : Int)
    (geometry conn_type : Option Uint16Buf) : job_step_info_t :=
  ⟨user_id, ⟨some block_id, some "512", some block_cnt, some step_cnt, geometry, conn_type⟩⟩

/-- A manager that knows one step, `job_id.step_id`, and answers an empty
step list for every other pair. -/
def sample_mgr (job_id step_id : Nat) (step : job_step_info_t) : Manager :=
  ⟨fun j s => if j = job_id ∧ s = step_id then some ⟨[step]⟩ else some ⟨[]⟩⟩

/-- A request of process `pid` and user `uid` with no block, corner or shape
set. -/
def sample_request (pid : Int) (uid : Nat) (envs : List Environment) : Verify :=
  ⟨pid, uid, envs, "", none, none⟩

/-! ## Predicates used in the statements -/

/-- The allow path: what the callback leaves behind when every check passes. -/
def AllowPath (mgr : Manager) (runjob_list : Option (List runjob_job_t)) (verify : Verify)
    (out : Outcome) : Prop :=
  ∃ (job_id step_id : Nat) (step_resp : job_step_info_response_msg_t)
    (step_ptr : job_step_info_t) (rest : List job_step_info_t)
    (bg_block_id total_cnodes : String) (block_cnode_cnt step_cnode_cnt : Int),
    scan_envs verify.envs NO_VAL NO_VAL 0 = (job_id, step_id, looking_for) ∧
    mgr.slurm_get_job_steps job_id step_id = some step_resp ∧
    step_resp.job_steps = step_ptr :: rest ∧
    verify.uid = step_ptr.user_id ∧
    step_ptr.select_jobinfo.block_id = some bg_block_id ∧
    step_ptr.select_jobinfo.ionodes = some total_cnodes ∧
    step_ptr.select_jobinfo.block_node_cnt = some block_cnode_cnt ∧
    step_ptr.select_jobinfo.node_cnt = some step_cnode_cnt ∧
    step_cnode_cnt ≠ 0 ∧ block_cnode_cnt ≠ 0 ∧
    3 ≤ bg_block_id.utf8ByteSize ∧
    out.runjob_list =
      append_if_open runjob_list ⟨bg_block_id, verify.pid, job_id, step_id, total_cnodes⟩ ∧
    out.stderr = [] ∧ out.deny_job = false ∧
    ((¬ step_cnode_cnt < block_cnode_cnt ∧ out.verify = { verify with block := bg_block_id }) ∨
     (step_cnode_cnt < block_cnode_cnt ∧ ∃ tmp_geo tmp_start : Uint16Buf,
        step_ptr.select_jobinfo.geometry = some tmp_geo ∧
        step_ptr.select_jobinfo.conn_type = some tmp_start ∧
        out.verify = { verify with block := bg_block_id, corner := some tmp_start.vals,
                                   shape := some tmp_geo.vals }))


/-- The environment of a launch inside job 10, step 0, among other
variables. -/
def envs_10_0 : List Environment :=
  [⟨"HOME", "/g/g0/user"⟩, ⟨"SLURM_JOB_ID", "10"⟩, ⟨"SLURM_STEP_ID", "0"⟩]

/-- An environment that holds `SLURM_JOB_ID` twice and no `SLURM_STEP_ID`. -/
def envs_job_twice : List Environment :=
  [⟨"SLURM_JOB_ID", "10"⟩, ⟨"SLURM_JOB_ID", "10"⟩]

/-- A whole-block step of user 1000: 512 nodes on a block of 512. -/
def step_whole (block_id : String) : job_step_info_t :=
  sample_step 1000 block_id 512 512 none none

/-- A sub-block step of user 1000: 128 nodes on a block of 512. -/
def step_sub (geometry conn_type : Option Uint16Buf) : job_step_info_t :=
  sample_step 1000 "RMP000" 512 128 geometry conn_type

/-- The geometry `[1,1,1,1,1]`. -/
def geo_ones : Uint16Buf := buf_all 1 (by decide)

/-- The start location `[0,0,0,0,0]`. -/
def start_zeros : Uint16Buf := buf_all 0 (by decide)

/-- The step with its geometry and start-location answers removed: what is
left is every field that a whole-block verification reads. -/
def erase_topology (step : job_step_info_t) : job_step_info_t :=
  { step with select_jobinfo :=
      { step.select_jobinfo with geometry := none, conn_type := none } }

/-- The answer of the manager with the two topology answers removed from
every step. -/
def erase_topology_resp (step_resp : job_step_info_response_msg_t) :
    job_step_info_response_msg_t :=
  ⟨step_resp.job_steps.map erase_topology⟩

/-- An environment that holds `SLURM_JOB_ID` twice, with two values, and no
`SLURM_STEP_ID`. -/
def envs_two_jobs : List Environment :=
  [⟨"SLURM_JOB_ID", "10"⟩, ⟨"SLURM_JOB_ID", "11"⟩, ⟨"PATH", "/usr/bin"⟩]

/-- The entries that the list tracks: none once the list is torn down. -/
def tracked_jobs (runjob_list : Option (List runjob_job_t)) : List runjob_job_t :=
  match runjob_list with
  | some l => l
  | none => []

/-- A geometry that was never set: every cell holds 65534, the value that
`NO_VAL` takes in a `uint16_t`. -/
def geo_unset : Uint16Buf := buf_all 65534 (by decide)

/-! ## Sequences of callbacks -/

/-- One callback of the host: a verify request, together with the manager
as it answers at that moment, or a termination notice. -/
inductive Event where
  | verify (mgr : Manager) (verify : Verify)
  | terminated (data : Terminated)

/-- The list after one callback. -/
def step_event (runjob_list : Option (List runjob_job_t)) : Event → Option (List runjob_job_t)
  | Event.verify mgr verify => (execute_verify mgr runjob_list verify).runjob_list
  | Event.terminated data => (execute_terminated runjob_list data).runjob_list

/-- The list after a sequence of callbacks, the first one first. -/
def run_events : Option (List runjob_job_t) → List Event → Option (List runjob_job_t)
  | runjob_list, [] => runjob_list
  | runjob_list, event :: rest => run_events (step_event runjob_list event) rest

/-- A list that tracks the pids 1, 2 and 3. -/
def list_1_2_3 : List runjob_job_t :=
  [⟨"RMP000", 1, 8, 0, "512"⟩, ⟨"RMP000", 2, 9, 0, "512"⟩, ⟨"RMP000", 3, 9, 1, "512"⟩]

/-- A request of process 7, user 1000, inside job 10, step 0. -/
def request_7 : Verify := sample_request 7 1000 envs_10_0

/-- A manager that knows the whole-block step 10.0 of user 1000. -/
def mgr_10_0 : Manager := sample_mgr 10 0 (step_whole "RMP000")

/-- A failed node whose first coordinate is 10. -/
def node_a10 : Node := ⟨"R00-M0-N00-J00", 10, 0, 0, 0, 0⟩

/-- Following the words of the spec: the integer that a string of decimal
digits denotes. -/
def decimal_value (digits : List Char) : Nat :=
  digits.foldl (fun acc c => acc * 10 + (c.toNat - 48)) 0

/-- Following the words of the spec: a value "parses as a non-negative
integer" when it is a non-empty string of decimal digits. -/
def parses_as_nat (value : String) : Bool :=
  !value.toList.isEmpty && value.toList.all isdigit

/-- An environment whose job id has trailing garbage and whose step id is
empty. -/
def envs_garbage : List Environment :=
  [⟨"SLURM_JOB_ID", "10abc"⟩, ⟨"SLURM_STEP_ID", ""⟩]

/-! ## The checks of the verify callback, one by one -/

/-- The checks of the verify callback, named as in the spec. -/
inductive Check where
  | correlation_keys
  | manager_lookup
  | step_count
  | ownership
  | block_id_fetch
  | cnode_fetch
  | block_count_fetch
  | step_count_fetch
  | zero_counts
  | geometry_fetch
  | start_location_fetch
  | missing_corner
  | missing_shape
  | block_id_length
deriving DecidableEq, Repr

/-- Following the words of the spec: the fixed order of the checks. -/
def check_order : List Check :=
  [Check.correlation_keys, Check.manager_lookup, Check.step_count, Check.ownership,
   Check.block_id_fetch, Check.cnode_fetch, Check.block_count_fetch, Check.step_count_fetch,
   Check.zero_counts, Check.geometry_fetch, Check.start_location_fetch,
   Check.missing_corner, Check.missing_shape, Check.block_id_length]

/-- The place of a check in the fixed order. -/
def check_index (c : Check) : Nat :=
  check_order.indexOf c

/-- The answer of the manager to the lookup of the scanned ids. -/
def lookup_answer (mgr : Manager) (verify : Verify) : Option job_step_info_response_msg_t :=
  mgr.slurm_get_job_steps (scan_envs verify.envs NO_VAL NO_VAL 0).1
    (scan_envs verify.envs NO_VAL NO_VAL 0).2.1

/-- The first step of that answer, when the lookup succeeds with a step. -/
def first_step (mgr : Manager) (verify : Verify) : Option job_step_info_t :=
  match lookup_answer mgr verify with
  | some step_resp => step_resp.job_steps.head?
  | none => none

/-- Following the words of the spec: a step is a sub-block allocation when
its node count is below the node count of its block. -/
def is_sub_block (select_jobinfo : select_jobinfo_t) : Bool :=
  match select_jobinfo.node_cnt, select_jobinfo.block_node_cnt with
  | some step_cnode_cnt, some block_cnode_cnt => step_cnode_cnt < block_cnode_cnt
  | _, _ => false

/-- Following the words of the spec: whether a check fails on a request,
each check taken by itself, on the data that the manager holds for it (a
check whose data does not exist does not fail). -/
def check_fails (mgr : Manager) (verify : Verify) : Check → Bool
  | Check.correlation_keys => (scan_envs verify.envs NO_VAL NO_VAL 0).2.2 != looking_for
  | Check.manager_lookup => (lookup_answer mgr verify).isNone
  | Check.step_count =>
    match lookup_answer mgr verify with
    | some step_resp => step_resp.job_steps.isEmpty
    | none => false
  | Check.ownership =>
    match first_step mgr verify with
    | some step => verify.uid != step.user_id
    | none => false
  | Check.block_id_fetch =>
    match first_step mgr verify with
    | some step => step.select_jobinfo.block_id.isNone
    | none => false
  | Check.cnode_fetch =>
    match first_step mgr verify with
    | some step => step.select_jobinfo.ionodes.isNone
    | none => false
  | Check.block_count_fetch =>
    match first_step mgr verify with
    | some step => step.select_jobinfo.block_node_cnt.isNone
    | none => false
  | Check.step_count_fetch =>
    match first_step mgr verify with
    | some step => step.select_jobinfo.node_cnt.isNone
    | none => false
  | Check.zero_counts =>
    match first_step mgr verify with
    | some step =>
      step.select_jobinfo.node_cnt == some 0 || step.select_jobinfo.block_node_cnt == some 0
    | none => false
  | Check.geometry_fetch =>
    match first_step mgr verify with
    | some step => is_sub_block step.select_jobinfo && step.select_jobinfo.geometry.isNone
    | none => false
  | Check.start_location_fetch =>
    match first_step mgr verify with
    | some step => is_sub_block step.select_jobinfo && step.select_jobinfo.conn_type.isNone
    | none => false
  | Check.missing_corner =>
    match first_step mgr verify with
    | some step =>
      is_sub_block step.select_jobinfo &&
        (match step.select_jobinfo.conn_type with
         | some tmp_start => tmp_start.vals.getD 0 0 == NO_VAL
         | none => false)
    | none => false
  | Check.missing_shape =>
    match first_step mgr verify with
    | some step =>
      is_sub_block step.select_jobinfo &&
        (match step.select_jobinfo.geometry with
         | some tmp_geo => tmp_geo.vals.getD 0 0 == NO_VAL
         | none => false)
    | none => false
  | Check.block_id_length =>
    match first_step mgr verify with
    | some step =>
      (match step.select_jobinfo.block_id with
       | some bg_block_id => decide (bg_block_id.utf8ByteSize < 3)
       | none => false)
    | none => false

/-- Following the words of the spec: the earliest failing check in the
fixed order, `none` when no check fails. -/
def first_failure (mgr : Manager) (verify : Verify) : Option Check :=
  check_order.find? (check_fails mgr verify)

/-- The line that the source writes where a check fails; the check of the
two keys writes none. -/
def check_message (mgr : Manager) (verify : Verify) : Check → List Msg
  | Check.correlation_keys => []
  | Check.manager_lookup => [Msg.get_job_steps_error]
  | Check.step_count =>
    [Msg.no_steps_match (scan_envs verify.envs NO_VAL NO_VAL 0).1
      (scan_envs verify.envs NO_VAL NO_VAL 0).2.1]
  | Check.ownership =>
    match first_step mgr verify with
    | some step =>
      [Msg.wrong_uid (scan_envs verify.envs NO_VAL NO_VAL 0).1
        (scan_envs verify.envs NO_VAL NO_VAL 0).2.1 step.user_id verify.uid]
    | none => []
  | Check.block_id_fetch => [Msg.cant_get_block_id]
  | Check.cnode_fetch => [Msg.cant_get_cnode_string]
  | Check.block_count_fetch => [Msg.cant_get_block_node_count]
  | Check.step_count_fetch => [Msg.cant_get_step_node_count]
  | Check.zero_counts =>
    match first_step mgr verify with
    | some step =>
      [Msg.missing_counts (step.select_jobinfo.node_cnt.getD 0)
        (step.select_jobinfo.block_node_cnt.getD 0)]
    | none => []
  | Check.geometry_fetch => [Msg.cant_get_geo]
  | Check.start_location_fetch => [Msg.cant_get_start_loc]
  | Check.missing_corner => [Msg.no_corner]
  | Check.missing_shape => [Msg.no_shape]
  | Check.block_id_length => [Msg.outside_of_slurm]

/-- Two answers to the fetches on a step agree on every fetch that is not
after the check `c` in the fixed order. -/
def agree_upto (c : Check) (sj1 sj2 : select_jobinfo_t) : Prop :=
  (check_index Check.block_id_fetch ≤ check_index c → sj1.block_id = sj2.block_id) ∧
  (check_index Check.cnode_fetch ≤ check_index c → sj1.ionodes = sj2.ionodes) ∧
  (check_index Check.block_count_fetch ≤ check_index c →
    sj1.block_node_cnt = sj2.block_node_cnt) ∧
  (check_index Check.step_count_fetch ≤ check_index c → sj1.node_cnt = sj2.node_cnt) ∧
  (check_index Check.geometry_fetch ≤ check_index c → sj1.geometry = sj2.geometry) ∧
  (check_index Check.start_location_fetch ≤ check_index c → sj1.conn_type = sj2.conn_type)

/-- Two managers agree on the lookup of the scanned ids and on every fetch
on its first step that is not after the check `c` in the fixed order; before
the lookup nothing is asked. What the answers hold beyond that is free. -/
def same_until (c : Check) (mgr1 mgr2 : Manager) (verify : Verify) : Prop :=
  check_index Check.manager_lookup ≤ check_index c →
    match lookup_answer mgr1 verify, lookup_answer mgr2 verify with
    | none, none => True
    | some resp1, some resp2 =>
      (match resp1.job_steps, resp2.job_steps with
       | [], [] => True
       | step1 :: _, step2 :: _ =>
         step1.user_id = step2.user_id ∧
           agree_upto c step1.select_jobinfo step2.select_jobinfo
       | _, _ => False)
    | _, _ => False

/-- A request of user 1001 for step 10.0. -/
def request_1001 : Verify := sample_request 5900 1001 envs_10_0

/-- A manager whose step 10.0 is owned by user 1000, has the two-character
block id `R0` and two zero counts: the owner test, the count test and the
block id test all fail for `request_1001`. -/
def mgr_fails_many : Manager := sample_mgr 10 0 (sample_step 1000 "R0" 0 0 none none)

/-- A manager whose step 10.0 is owned by user 1000 and fails every
fetch. -/
def mgr_no_fetch : Manager := sample_mgr 10 0 ⟨1000, ⟨none, none, none, none, none, none⟩⟩

/-! ## Lemmas on the stages of the verify callback -/

/-- An empty string has fewer than three bytes. -/
theorem isEmpty_utf8ByteSize (s : String) (h : s.isEmpty = true) : s.utf8ByteSize < 3 := by
  simp [String.isEmpty, String.endPos] at h
  have : s.utf8ByteSize = 0 := by
    have := congrArg String.Pos.byteIdx h
    simpa using this
  omega

/-- The test of the block id is a test of its byte length alone. -/
theorem verify_from_block_check_eq (verify : Verify) (runjob_list : Option (List runjob_job_t))
    (job_id step_id : Nat) (bg_block_id total_cnodes : String) :
    verify_from_block_check verify runjob_list job_id step_id bg_block_id total_cnodes =
      if verify.block.utf8ByteSize < 3 then deny_job verify runjob_list [Msg.outside_of_slurm]
      else ⟨verify, false,
        append_if_open runjob_list ⟨bg_block_id, verify.pid, job_id, step_id, total_cnodes⟩, []⟩ := by
  unfold verify_from_block_check
  by_cases h : verify.block.utf8ByteSize < 3
  · simp [h]
  · have h2 : verify.block.isEmpty = false := by
      cases h3 : verify.block.isEmpty
      · rfl
      · exact absurd (isEmpty_utf8ByteSize _ h3) h
    simp [h, h2]

/-- The copy loop overwrites every cell: the array is the fetched buffer. -/
theorem copy_dims_unset (tmp_uint16 : Uint16Buf) :
    copy_dims unset_dims tmp_uint16 = tmp_uint16.vals := by
  obtain ⟨vals, hlen, hu⟩ := tmp_uint16
  match vals, hlen with
  | [a, b, c, d, e], _ => rfl

/-- A 16-bit value is never the 32-bit `NO_VAL`. -/
theorem uint16_ne_NO_VAL (tmp_uint16 : Uint16Buf) : tmp_uint16.vals.getD 0 0 ≠ NO_VAL := by
  obtain ⟨vals, hlen, hu⟩ := tmp_uint16
  match vals, hlen with
  | [a, b, c, d, e], _ =>
    have := hu a (by simp)
    simp [NO_VAL]
    omega

/-- After two successful fetches the corner and the shape are both set. -/
theorem verify_from_corner_sub (verify : Verify) (runjob_list : Option (List runjob_job_t))
    (job_id step_id : Nat) (bg_block_id total_cnodes : String) (tmp_geo tmp_start : Uint16Buf) :
    verify_from_corner verify runjob_list job_id step_id bg_block_id total_cnodes true
        (copy_dims unset_dims tmp_geo) (copy_dims unset_dims tmp_start) =
      verify_from_block_check
        { verify with corner := some tmp_start.vals, shape := some tmp_geo.vals }
        runjob_list job_id step_id bg_block_id total_cnodes := by
  have h1 := uint16_ne_NO_VAL tmp_geo
  have h2 := uint16_ne_NO_VAL tmp_start
  rw [List.getD_eq_getElem?_getD] at h1 h2
  simp [verify_from_corner, verify_from_shape, copy_dims_unset, h1, h2]

/-- Without `sub_block_job` neither the corner nor the shape is touched. -/
theorem verify_from_corner_whole (verify : Verify) (runjob_list : Option (List runjob_job_t))
    (job_id step_id : Nat) (bg_block_id total_cnodes : String) (geo start_coords : List Nat) :
    verify_from_corner verify runjob_list job_id step_id bg_block_id total_cnodes false
        geo start_coords =
      verify_from_block_check verify runjob_list job_id step_id bg_block_id total_cnodes := by
  simp [verify_from_corner, verify_from_shape]

/-- The callback up to the first step of the answer of the manager. -/
theorem execute_verify_of_step (mgr : Manager) (runjob_list : Option (List runjob_job_t))
    (verify : Verify) (job_id step_id : Nat) (step_resp : job_step_info_response_msg_t)
    (step_ptr : job_step_info_t) (rest : List job_step_info_t)
    (hscan : scan_envs verify.envs NO_VAL NO_VAL 0 = (job_id, step_id, looking_for))
    (hmgr : mgr.slurm_get_job_steps job_id step_id = some step_resp)
    (hsteps : step_resp.job_steps = step_ptr :: rest) :
    execute_verify mgr runjob_list verify =
      verify_from_step verify runjob_list job_id step_id step_ptr := by
  simp [execute_verify, hscan, hmgr, hsteps]

/-- The callback from the owner test to the two counts. -/
theorem verify_from_step_of_fetch (verify : Verify) (runjob_list : Option (List runjob_job_t))
    (job_id step_id : Nat) (step_ptr : job_step_info_t) (bg_block_id total_cnodes : String)
    (block_cnode_cnt step_cnode_cnt : Int)
    (huid : verify.uid = step_ptr.user_id)
    (hblock : step_ptr.select_jobinfo.block_id = some bg_block_id)
    (hcnodes : step_ptr.select_jobinfo.ionodes = some total_cnodes)
    (hbcnt : step_ptr.select_jobinfo.block_node_cnt = some block_cnode_cnt)
    (hscnt : step_ptr.select_jobinfo.node_cnt = some step_cnode_cnt) :
    verify_from_step verify runjob_list job_id step_id step_ptr =
      verify_from_counts { verify with block := bg_block_id } runjob_list job_id step_id
        bg_block_id total_cnodes step_ptr.select_jobinfo block_cnode_cnt step_cnode_cnt := by
  simp [verify_from_step, huid, hblock, hcnodes, hbcnt, hscnt]

/-- What the label `deny_job` leaves behind. -/
theorem deny_job_list (verify : Verify) (runjob_list : Option (List runjob_job_t))
    (stderr : List Msg) :
    (deny_job verify runjob_list stderr).deny_job = true ∧
      (deny_job verify runjob_list stderr).verify = verify ∧
      (deny_job verify runjob_list stderr).runjob_list = runjob_list ∧
      (deny_job verify runjob_list stderr).stderr = stderr := by
  simp [deny_job]

/-- Every run of the callback ends at the label `deny_job` with the list
untouched, or on the allow path. -/
theorem execute_verify_cases (mgr : Manager) (runjob_list : Option (List runjob_job_t))
    (verify : Verify) :
    (∃ w msgs, execute_verify mgr runjob_list verify = deny_job w runjob_list msgs) ∨
      AllowPath mgr runjob_list verify (execute_verify mgr runjob_list verify) := by
  rcases hscan : scan_envs verify.envs NO_VAL NO_VAL 0 with ⟨job_id, step_id, found⟩
  by_cases hfound : found = looking_for
  swap
  · left; exact ⟨verify, [], by simp [execute_verify, hscan, hfound]⟩
  subst hfound
  cases hmgr : mgr.slurm_get_job_steps job_id step_id with
  | none => left; exact ⟨verify, _, by simp [execute_verify, hscan, hmgr]; rfl⟩
  | some step_resp =>
  cases hsteps : step_resp.job_steps with
  | nil => left; exact ⟨verify, _, by simp [execute_verify, hscan, hmgr, hsteps]; rfl⟩
  | cons step_ptr rest =>
  rw [execute_verify_of_step mgr runjob_list verify job_id step_id step_resp step_ptr rest
    hscan hmgr hsteps]
  by_cases huid : verify.uid = step_ptr.user_id
  swap
  · left; exact ⟨verify, _, by simp [verify_from_step, huid]; rfl⟩
  cases hblock : step_ptr.select_jobinfo.block_id with
  | none => left; exact ⟨verify, _, by simp [verify_from_step, huid, hblock]; rfl⟩
  | some bg_block_id =>
  cases hcnodes : step_ptr.select_jobinfo.ionodes with
  | none => left; exact ⟨_, _, by simp only [verify_from_step, huid, hblock, hcnodes]; simp; rfl⟩
  | some total_cnodes =>
  cases hbcnt : step_ptr.select_jobinfo.block_node_cnt with
  | none =>
    left; exact ⟨_, _, by simp only [verify_from_step, huid, hblock, hcnodes, hbcnt]; simp; rfl⟩
  | some block_cnode_cnt =>
  cases hscnt : step_ptr.select_jobinfo.node_cnt with
  | none =>
    left
    exact ⟨_, _, by simp only [verify_from_step, huid, hblock, hcnodes, hbcnt, hscnt]; simp; rfl⟩
  | some step_cnode_cnt =>
  rw [verify_from_step_of_fetch verify runjob_list job_id step_id step_ptr bg_block_id
    total_cnodes block_cnode_cnt step_cnode_cnt huid hblock hcnodes hbcnt hscnt]
  unfold verify_from_counts
  by_cases hzero : step_cnode_cnt = 0 ∨ block_cnode_cnt = 0
  · left; exact ⟨_, _, by simp [hzero]; rfl⟩
  have hs0 : step_cnode_cnt ≠ 0 := fun h => hzero (Or.inl h)
  have hb0 : block_cnode_cnt ≠ 0 := fun h => hzero (Or.inr h)
  by_cases hsub : step_cnode_cnt < block_cnode_cnt
  · cases hgeo : step_ptr.select_jobinfo.geometry with
    | none => left; exact ⟨_, _, by simp [hs0, hb0, hsub, hgeo]; rfl⟩
    | some tmp_geo =>
    cases hstart : step_ptr.select_jobinfo.conn_type with
    | none => left; exact ⟨_, _, by simp [hs0, hb0, hsub, hgeo, hstart]; rfl⟩
    | some tmp_start =>
    simp only [hs0, hb0, hsub, hgeo, hstart, verify_from_corner_sub, verify_from_block_check_eq]
    by_cases hlen : bg_block_id.utf8ByteSize < 3
    · left; exact ⟨_, _, by simp [hlen]; rfl⟩
    · right
      refine ⟨job_id, step_id, step_resp, step_ptr, rest, bg_block_id, total_cnodes,
        block_cnode_cnt, step_cnode_cnt, hscan, hmgr, hsteps, huid, hblock, hcnodes, hbcnt,
        hscnt, hs0, hb0, by omega, ?_, ?_, ?_, ?_⟩
      · simp [hlen]
      · simp [hlen]
      · simp [hlen]
      · right; exact ⟨hsub, tmp_geo, tmp_start, hgeo, hstart, by simp [hlen]⟩
  · simp only [hs0, hb0, hsub, verify_from_corner_whole, verify_from_block_check_eq]
    by_cases hlen : bg_block_id.utf8ByteSize < 3
    · left; exact ⟨_, _, by simp [hlen]; rfl⟩
    · right
      refine ⟨job_id, step_id, step_resp, step_ptr, rest, bg_block_id, total_cnodes,
        block_cnode_cnt, step_cnode_cnt, hscan, hmgr, hsteps, huid, hblock, hcnodes, hbcnt,
        hscnt, hs0, hb0, by omega, ?_, ?_, ?_, ?_⟩
      · simp [hlen]
      · simp [hlen]
      · simp [hlen]
      · left; exact ⟨hsub, by simp [hlen]⟩

/-- Non-zero counts, step not smaller than the block: on to the block id. -/
theorem verify_from_counts_whole (verify : Verify) (runjob_list : Option (List runjob_job_t))
    (job_id step_id : Nat) (bg_block_id total_cnodes : String)
    (select_jobinfo : select_jobinfo_t) (block_cnode_cnt step_cnode_cnt : Int)
    (hs0 : step_cnode_cnt ≠ 0) (hb0 : block_cnode_cnt ≠ 0)
    (hwhole : ¬ step_cnode_cnt < block_cnode_cnt) :
    verify_from_counts verify runjob_list job_id step_id bg_block_id total_cnodes
        select_jobinfo block_cnode_cnt step_cnode_cnt =
      verify_from_block_check verify runjob_list job_id step_id bg_block_id total_cnodes := by
  simp [verify_from_counts, hs0, hb0, hwhole, verify_from_corner_whole]

/-- Non-zero counts, step smaller than the block, both fetches succeed. -/
theorem verify_from_counts_sub (verify : Verify) (runjob_list : Option (List runjob_job_t))
    (job_id step_id : Nat) (bg_block_id total_cnodes : String)
    (select_jobinfo : select_jobinfo_t) (block_cnode_cnt step_cnode_cnt : Int)
    (tmp_geo tmp_start : Uint16Buf)
    (hs0 : step_cnode_cnt ≠ 0) (hb0 : block_cnode_cnt ≠ 0)
    (hsub : step_cnode_cnt < block_cnode_cnt)
    (hgeo : select_jobinfo.geometry = some tmp_geo)
    (hstart : select_jobinfo.conn_type = some tmp_start) :
    verify_from_counts verify runjob_list job_id step_id bg_block_id total_cnodes
        select_jobinfo block_cnode_cnt step_cnode_cnt =
      verify_from_block_check
        { verify with corner := some tmp_start.vals, shape := some tmp_geo.vals }
        runjob_list job_id step_id bg_block_id total_cnodes := by
  simp [verify_from_counts, hs0, hb0, hsub, hgeo, hstart, verify_from_corner_sub]

/-- A step that is not smaller than its block is verified without its
geometry and start-location answers. -/
theorem verify_from_step_erase (verify : Verify) (runjob_list : Option (List runjob_job_t))
    (job_id step_id : Nat) (step_ptr : job_step_info_t) (block_cnode_cnt step_cnode_cnt : Int)
    (hbcnt : step_ptr.select_jobinfo.block_node_cnt = some block_cnode_cnt)
    (hscnt : step_ptr.select_jobinfo.node_cnt = some step_cnode_cnt)
    (hwhole : ¬ step_cnode_cnt < block_cnode_cnt) :
    verify_from_step verify runjob_list job_id step_id step_ptr =
      verify_from_step verify runjob_list job_id step_id (erase_topology step_ptr) := by
  by_cases huid : verify.uid = step_ptr.user_id
  swap
  · simp [verify_from_step, erase_topology, huid]
  cases hblock : step_ptr.select_jobinfo.block_id with
  | none => simp [verify_from_step, erase_topology, huid, hblock]
  | some bg_block_id =>
  cases hcnodes : step_ptr.select_jobinfo.ionodes with
  | none => simp [verify_from_step, erase_topology, huid, hblock, hcnodes]
  | some total_cnodes =>
    simp [verify_from_step, erase_topology, huid, hblock, hcnodes, hbcnt, hscnt,
      verify_from_counts, hwhole]

/-! ## Lemmas on the list -/

/-- The loop finds nothing and removes nothing when no entry has the pid. -/
theorem list_remove_pid_untracked (pid : Int) (l : List runjob_job_t)
    (h : ∀ y ∈ l, y.pid ≠ pid) : list_remove_pid pid l = (none, l) := by
  induction l with
  | nil => rfl
  | cons y rest ih =>
    have hy : y.pid ≠ pid := h y (List.mem_cons_self _ _)
    have hrest := ih (fun z hz => h z (List.mem_cons_of_mem _ hz))
    simp [list_remove_pid, hy, hrest]

/-- The loop removes the first entry that has the pid, and only it. -/
theorem list_remove_pid_tracked (pid : Int) (l : List runjob_job_t)
    (h : ∃ x ∈ l, x.pid = pid) :
    ∃ l1 x l2, l = l1 ++ x :: l2 ∧ x.pid = pid ∧ (∀ y ∈ l1, y.pid ≠ pid) ∧
      list_remove_pid pid l = (some x, l1 ++ l2) := by
  induction l with
  | nil => simp at h
  | cons y rest ih =>
    by_cases hy : y.pid = pid
    · exact ⟨[], y, rest, rfl, hy, by simp, by simp [list_remove_pid, hy]⟩
    · have hrest : ∃ x ∈ rest, x.pid = pid := by
        obtain ⟨x, hx, hxp⟩ := h
        rcases List.mem_cons.mp hx with rfl | hx2
        · exact absurd hxp hy
        · exact ⟨x, hx2, hxp⟩
      obtain ⟨l1, x, l2, hl, hx, hl1, hrem⟩ := ih hrest
      refine ⟨y :: l1, x, l2, by simp [hl], hx, ?_, by simp [list_remove_pid, hy, hrem]⟩
      intro z hz
      rcases List.mem_cons.mp hz with rfl | hz2
      · exact hy
      · exact hl1 z hz2

/-- The loop removes an entry appended to a list that did not track its
pid. -/
theorem list_remove_pid_append (pid : Int) (l : List runjob_job_t) (runjob_job : runjob_job_t)
    (h : ∀ y ∈ l, y.pid ≠ pid) (hpid : runjob_job.pid = pid) :
    list_remove_pid pid (l ++ [runjob_job]) = (some runjob_job, l) := by
  induction l with
  | nil => simp [list_remove_pid, hpid]
  | cons y rest ih =>
    have hy : y.pid ≠ pid := h y (List.mem_cons_self _ _)
    have hrest := ih (fun z hz => h z (List.mem_cons_of_mem _ hz))
    simp [list_remove_pid, hy, hrest]

/-- On the allow path the list is the old one with the entry of the request
appended when it is open, and the block of the decision is the block of the
entry. -/
theorem allow_descriptor (mgr : Manager) (runjob_list : Option (List runjob_job_t))
    (verify : Verify) (hallow : (execute_verify mgr runjob_list verify).deny_job = false) :
    ∃ (job_id step_id : Nat) (step_resp : job_step_info_response_msg_t)
      (step_ptr : job_step_info_t) (rest : List job_step_info_t)
      (bg_block_id total_cnodes : String),
      scan_envs verify.envs NO_VAL NO_VAL 0 = (job_id, step_id, looking_for) ∧
      mgr.slurm_get_job_steps job_id step_id = some step_resp ∧
      step_resp.job_steps = step_ptr :: rest ∧
      step_ptr.select_jobinfo.block_id = some bg_block_id ∧
      step_ptr.select_jobinfo.ionodes = some total_cnodes ∧
      (execute_verify mgr runjob_list verify).runjob_list =
        append_if_open runjob_list
          ⟨bg_block_id, verify.pid, job_id, step_id, total_cnodes⟩ ∧
      (execute_verify mgr runjob_list verify).verify.block = bg_block_id := by
  rcases execute_verify_cases mgr runjob_list verify with ⟨w, msgs, hdeny⟩ | hpath
  · rw [hdeny] at hallow
    simp [deny_job] at hallow
  · obtain ⟨job_id, step_id, step_resp, step_ptr, rest, bg_block_id, total_cnodes,
      block_cnode_cnt, step_cnode_cnt, h1, h2, h3, _, h5, h6, _, _, _, _, _, hlist, _, _,
      hshape⟩ := hpath
    refine ⟨job_id, step_id, step_resp, step_ptr, rest, bg_block_id, total_cnodes,
      h1, h2, h3, h5, h6, hlist, ?_⟩
    rcases hshape with ⟨_, hv⟩ | ⟨_, _, _, _, _, hv⟩ <;> rw [hv]

/-- A denied job leaves the list as it was. -/
theorem deny_keeps_list (mgr : Manager) (runjob_list : Option (List runjob_job_t))
    (verify : Verify) (hdeny : (execute_verify mgr runjob_list verify).deny_job = true) :
    (execute_verify mgr runjob_list verify).runjob_list = runjob_list := by
  rcases execute_verify_cases mgr runjob_list verify with ⟨w, msgs, hd⟩ | hpath
  · rw [hd]; rfl
  · obtain ⟨_, _, _, _, _, _, _, _, _, _, _, _, _, _, _, _, _, _, _, _, _, _, hallow, _⟩ := hpath
    rw [hallow] at hdeny
    exact absurd hdeny (by decide)

/-! ## Lemmas on sequences of callbacks -/

/-- A list that is torn down stays torn down through a verify callback. -/
theorem execute_verify_closed (mgr : Manager) (verify : Verify) :
    (execute_verify mgr none verify).runjob_list = none := by
  rcases execute_verify_cases mgr none verify with ⟨w, msgs, hd⟩ | hpath
  · rw [hd]; rfl
  · obtain ⟨_, _, _, _, _, _, _, _, _, _, _, _, _, _, _, _, _, _, _, _, hlist, _⟩ := hpath
    rw [hlist]; rfl

/-- A list that is torn down stays torn down through a termination
callback, which writes nothing. -/
theorem execute_terminated_closed (data : Terminated) :
    execute_terminated none data = ⟨none, [], false⟩ := by
  simp [execute_terminated, terminated_diagnostics]

/-- A list that is torn down stays torn down through any callbacks. -/
theorem run_events_closed (events : List Event) : run_events none events = none := by
  induction events with
  | nil => rfl
  | cons event rest ih =>
    cases event with
    | verify mgr verify => simp [run_events, step_event, execute_verify_closed, ih]
    | terminated data => simp [run_events, step_event, execute_terminated_closed, ih]

/-- A coordinate below ten is printed by `%u` as one character. -/
theorem toString_digit_length (a : Nat) (h : a < 10) : (toString a).length = 1 := by
  interval_cases a <;> rfl

/-- With every coordinate below ten the formatted text has five characters,
and with its terminator it fills the buffer exactly. -/
theorem sprintf_coords_fits (i : Node) (ha : i.a < 10) (hb : i.b < 10) (hc : i.c < 10)
    (hd : i.d < 10) (he : i.e < 10) :
    (sprintf_coords i).length = 5 ∧ (sprintf_coords i).length + 1 = tmp_char_size := by
  simp [sprintf_coords, String.length_append, toString_digit_length, ha, hb, hc, hd, he,
    tmp_char_size]

/-- On decimal digits the accumulation of `strtol` is the decimal value. -/
theorem strtol_digits_eq_foldl (digits : List Char) (hd : ∀ c ∈ digits, isdigit c = true) :
    ∀ acc, strtol_digits digits acc =
      digits.foldl (fun acc c => acc * 10 + (c.toNat - 48)) acc := by
  induction digits with
  | nil => intro acc; rfl
  | cons c cs ih =>
    intro acc
    have hc : isdigit c = true := hd c (List.mem_cons_self _ _)
    simp only [strtol_digits, hc, if_true, List.foldl_cons]
    exact ih (fun x hx => hd x (List.mem_cons_of_mem _ hx)) _

/-- The conversion to `int` and then to `uint32_t` keeps a value that fits
an `int`. -/
theorem to_uint32_to_int32 (n : Nat) (h : n ≤ 2147483647) :
    to_uint32 (to_int32 (n : Int)) = n := by
  unfold to_uint32 to_int32
  omega

/-- A non-empty string of decimal digits that denotes a value fitting an
`int` is converted by `atoi` to that value. -/
theorem atoi_of_digits (value : String) (hp : parses_as_nat value = true)
    (hfit : decimal_value value.toList ≤ 2147483647) :
    to_uint32 (atoi value) = decimal_value value.toList := by
  unfold parses_as_nat at hp
  simp only [Bool.and_eq_true, Bool.not_eq_true', List.all_eq_true] at hp
  obtain ⟨hne, hall⟩ := hp
  unfold atoi
  cases hl : value.toList with
  | nil => rw [hl] at hne; simp at hne
  | cons c cs =>
    rw [hl] at hall hfit
    have hc : isdigit c = true := hall c (List.mem_cons_self _ _)
    have hrange : 48 ≤ c.toNat ∧ c.toNat ≤ 57 := by
      simpa [isdigit] using hc
    have hsp : isspace c = false := by
      simp only [isspace, Bool.or_eq_false_iff, beq_eq_false_iff_ne, ne_eq,
        Bool.and_eq_false_iff, decide_eq_false_iff_not]
      omega
    have h45 : ¬ c.toNat = 45 := by omega
    have h43 : ¬ c.toNat = 43 := by omega
    have hval : strtol_digits (c :: cs) 0 = decimal_value (c :: cs) :=
      strtol_digits_eq_foldl (c :: cs) hall 0
    have hskip : skip_space (c :: cs) = c :: cs := by simp [skip_space, hsp]
    have hle : (decimal_value (c :: cs) : Int) ≤ LONG_MAX := by
      unfold LONG_MAX
      omega
    have hstrtol : strtol (c :: cs) = (decimal_value (c :: cs) : Int) := by
      unfold strtol
      rw [hskip]
      simp only [h45, h43, if_false]
      rw [hval]
      exact min_eq_right hle
    rw [hstrtol]
    exact to_uint32_to_int32 _ hfit

/-- The scan sees only the entries keyed by one of the two names. -/
theorem scan_envs_filter (envs : List Environment) :
    ∀ job_id step_id found, found < looking_for →
      scan_envs envs job_id step_id found =
        scan_envs (envs.filter is_id_key) job_id step_id found := by
  induction envs with
  | nil => intro _ _ _ _; rfl
  | cons env_var rest ih =>
    intro job_id step_id found hlt
    have hne : ¬ found = looking_for := by omega
    by_cases hj : env_var.key = "SLURM_JOB_ID"
    · have hk : is_id_key env_var = true := by simp [is_id_key, hj]
      by_cases hf : found + 1 = looking_for
      · simp [scan_envs, hj, hf, List.filter_cons, hk]
      · have := ih (to_uint32 (atoi env_var.value)) step_id (found + 1)
          (by simp only [looking_for] at hlt hf ⊢; omega)
        simp [scan_envs, hj, hf, List.filter_cons, hk, this]
    · by_cases hs : env_var.key = "SLURM_STEP_ID"
      · have hk : is_id_key env_var = true := by simp [is_id_key, hs]
        by_cases hf : found + 1 = looking_for
        · simp only [scan_envs, if_neg hj, if_pos hs, hf, List.filter_cons, hk, if_true]
        · have := ih job_id (to_uint32 (atoi env_var.value)) (found + 1)
            (by simp only [looking_for] at hlt hf ⊢; omega)
          simp only [scan_envs, if_neg hj, if_pos hs, hf, List.filter_cons, hk, if_true,
            if_false, this]
      · have hk : is_id_key env_var = false := by simp [is_id_key, hj, hs]
        simp only [scan_envs, if_neg hj, if_neg hs, hne, List.filter_cons, hk, if_false]
        exact ih job_id step_id found hlt

/-- When the first two entries keyed by one of the two names are one of
each, the scan ends with the `atoi` conversions of their values. -/
theorem scan_envs_one_of_each (envs tail : List Environment) (vj vs : String)
    (hkeys : envs.filter is_id_key = ⟨"SLURM_JOB_ID", vj⟩ :: ⟨"SLURM_STEP_ID", vs⟩ :: tail ∨
      envs.filter is_id_key = ⟨"SLURM_STEP_ID", vs⟩ :: ⟨"SLURM_JOB_ID", vj⟩ :: tail) :
    scan_envs envs NO_VAL NO_VAL 0 =
      (to_uint32 (atoi vj), to_uint32 (atoi vs), looking_for) := by
  rw [scan_envs_filter envs NO_VAL NO_VAL 0 (by decide)]
  have hne : ¬ ("SLURM_STEP_ID" = "SLURM_JOB_ID") := by decide
  rcases hkeys with h | h
  · rw [h]
    simp [scan_envs, looking_for, hne]
  · rw [h]
    simp [scan_envs, looking_for, hne]

/-! ## Lemmas on the failed-node lines -/

/-- The byte length of a concatenation. -/
theorem utf8ByteSize_append (s t : String) :
    (s ++ t).utf8ByteSize = s.utf8ByteSize + t.utf8ByteSize := by
  obtain ⟨a⟩ := s
  obtain ⟨b⟩ := t
  show String.utf8ByteSize ⟨a ++ b⟩ = _
  simp [String.utf8ByteSize_mk, String.utf8Len_append]

/-- A coordinate below ten is printed by `%u` as one byte. -/
theorem toString_digit_bytes (a : Nat) (h : a < 10) : (toString a).utf8ByteSize = 1 := by
  interval_cases a <;> rfl

/-- With every coordinate below ten the formatted text fits the buffer. -/
theorem sprintf_fits_of_digits (i : Node) (ha : i.a < 10) (hb : i.b < 10) (hc : i.c < 10)
    (hd : i.d < 10) (he : i.e < 10) : sprintf_fits i = true := by
  simp [sprintf_fits, sprintf_coords, utf8ByteSize_append, toString_digit_bytes, ha, hb, hc,
    hd, he, tmp_char_size]

/-- When every text fits the buffer, the loop writes one line for each node
and nothing overflows. -/
theorem node_lines_of_fits (nodes : List Node) (hfit : ∀ i ∈ nodes, sprintf_fits i = true) :
    node_lines nodes =
      (nodes.map (fun i => Msg.node_line i.location i.a i.b i.c i.d i.e (sprintf_coords i)),
       false) := by
  induction nodes with
  | nil => rfl
  | cons i rest ih =>
    have hi : sprintf_fits i = true := hfit i (List.mem_cons_self _ _)
    have hrest := ih (fun j hj => hfit j (List.mem_cons_of_mem _ hj))
    simp [node_lines, hi, hrest]

/-- Every line that the loop writes is the line of one of the nodes, with a
text that fits the buffer. -/
theorem node_lines_mem (nodes : List Node) :
    ∀ m ∈ (node_lines nodes).1, ∃ i ∈ nodes, sprintf_fits i = true ∧
      m = Msg.node_line i.location i.a i.b i.c i.d i.e (sprintf_coords i) := by
  induction nodes with
  | nil => intro m hm; simp [node_lines] at hm
  | cons i rest ih =>
    intro m hm
    by_cases hi : sprintf_fits i = true
    · simp only [node_lines, hi, if_true, List.mem_cons] at hm
      rcases hm with rfl | hm2
      · exact ⟨i, List.mem_cons_self _ _, hi, rfl⟩
      · obtain ⟨j, hj, hjf, hjm⟩ := ih m hm2
        exact ⟨j, List.mem_cons_of_mem _ hj, hjf, hjm⟩
    · simp [node_lines, hi] at hm

/-- The loop overflows the buffer exactly when the text of some node does
not fit. -/
theorem node_lines_overflow (nodes : List Node) :
    (node_lines nodes).2 = true ↔ ∃ i ∈ nodes, sprintf_fits i = false := by
  induction nodes with
  | nil => simp [node_lines]
  | cons i rest ih =>
    by_cases hi : sprintf_fits i = true
    · simp only [node_lines, hi, if_true, ih, List.mem_cons]
      constructor
      · rintro ⟨j, hj, hjf⟩
        exact ⟨j, Or.inr hj, hjf⟩
      · rintro ⟨j, hj, hjf⟩
        rcases hj with rfl | hj2
        · rw [hi] at hjf; exact absurd hjf (by decide)
        · exact ⟨j, hj2, hjf⟩
    · have hif : sprintf_fits i = false := by simpa using hi
      simp only [node_lines, hif, Bool.false_eq_true, if_false, true_iff]
      exact ⟨i, List.mem_cons_self _ _, hif⟩

/-! ## Lemmas on the order of the checks -/

/-- The search for the first element as a conditional. -/
theorem find_cons_ite {α : Type} (p : α → Bool) (a : α) (l : List α) :
    (a :: l).find? p = if p a = true then some a else l.find? p := by
  cases h : p a <;> simp [List.find?, h]

/-- The earliest failing check as a chain of conditionals. -/
theorem first_failure_eq (mgr : Manager) (verify : Verify) :
    first_failure mgr verify =
      if check_fails mgr verify Check.correlation_keys = true then some Check.correlation_keys
      else if check_fails mgr verify Check.manager_lookup = true then some Check.manager_lookup
      else if check_fails mgr verify Check.step_count = true then some Check.step_count
      else if check_fails mgr verify Check.ownership = true then some Check.ownership
      else if check_fails mgr verify Check.block_id_fetch = true then some Check.block_id_fetch
      else if check_fails mgr verify Check.cnode_fetch = true then some Check.cnode_fetch
      else if check_fails mgr verify Check.block_count_fetch = true then
        some Check.block_count_fetch
      else if check_fails mgr verify Check.step_count_fetch = true then
        some Check.step_count_fetch
      else if check_fails mgr verify Check.zero_counts = true then some Check.zero_counts
      else if check_fails mgr verify Check.geometry_fetch = true then some Check.geometry_fetch
      else if check_fails mgr verify Check.start_location_fetch = true then
        some Check.start_location_fetch
      else if check_fails mgr verify Check.missing_corner = true then some Check.missing_corner
      else if check_fails mgr verify Check.missing_shape = true then some Check.missing_shape
      else if check_fails mgr verify Check.block_id_length = true then
        some Check.block_id_length
      else none := by
  simp only [first_failure, check_order, find_cons_ite, List.find?_nil]

/-- The callback denies exactly when some check fails, and the line it
writes is that of the earliest failing check. -/
theorem execute_verify_first_failure (mgr : Manager) (runjob_list : Option (List runjob_job_t))
    (verify : Verify) :
    (execute_verify mgr runjob_list verify).deny_job = (first_failure mgr verify).isSome ∧
    (execute_verify mgr runjob_list verify).stderr =
      (match first_failure mgr verify with
       | some c => check_message mgr verify c
       | none => []) := by
  rw [first_failure_eq]
  rcases hscan : scan_envs verify.envs NO_VAL NO_VAL 0 with ⟨job_id, step_id, found⟩
  by_cases hfound : found = looking_for
  swap
  · simp [execute_verify, hscan, hfound, deny_job, check_fails, check_message]
  subst hfound
  cases hmgr : mgr.slurm_get_job_steps job_id step_id with
  | none =>
    simp [execute_verify, hscan, hmgr, deny_job, check_fails, check_message, lookup_answer]
  | some step_resp =>
  cases hsteps : step_resp.job_steps with
  | nil =>
    simp [execute_verify, hscan, hmgr, hsteps, deny_job, check_fails, check_message,
      lookup_answer, first_step]
  | cons step_ptr rest =>
  rw [execute_verify_of_step mgr runjob_list verify job_id step_id step_resp step_ptr rest
    hscan hmgr hsteps]
  have hfs : first_step mgr verify = some step_ptr := by
    simp [first_step, lookup_answer, hscan, hmgr, hsteps]
  have hla : lookup_answer mgr verify = some step_resp := by
    simp [lookup_answer, hscan, hmgr]
  by_cases huid : verify.uid = step_ptr.user_id
  swap
  · simp [verify_from_step, huid, deny_job, check_fails, check_message, hfs, hla, hscan,
      hsteps]
  cases hblock : step_ptr.select_jobinfo.block_id with
  | none =>
    simp [verify_from_step, huid, hblock, deny_job, check_fails, check_message, hfs, hla,
      hscan, hsteps]
  | some bg_block_id =>
  cases hcnodes : step_ptr.select_jobinfo.ionodes with
  | none =>
    simp [verify_from_step, huid, hblock, hcnodes, deny_job, check_fails, check_message, hfs,
      hla, hscan, hsteps]
  | some total_cnodes =>
  cases hbcnt : step_ptr.select_jobinfo.block_node_cnt with
  | none =>
    simp [verify_from_step, huid, hblock, hcnodes, hbcnt, deny_job, check_fails,
      check_message, hfs, hla, hscan, hsteps]
  | some block_cnode_cnt =>
  cases hscnt : step_ptr.select_jobinfo.node_cnt with
  | none =>
    simp [verify_from_step, huid, hblock, hcnodes, hbcnt, hscnt, deny_job, check_fails,
      check_message, hfs, hla, hscan, hsteps]
  | some step_cnode_cnt =>
  rw [verify_from_step_of_fetch verify runjob_list job_id step_id step_ptr bg_block_id
    total_cnodes block_cnode_cnt step_cnode_cnt huid hblock hcnodes hbcnt hscnt]
  by_cases hzero : step_cnode_cnt = 0 ∨ block_cnode_cnt = 0
  · simp [verify_from_counts, hzero, deny_job, check_fails, check_message, hfs, hla, hscan,
      hsteps, huid, hblock, hcnodes, hbcnt, hscnt]
  have hs0 : step_cnode_cnt ≠ 0 := fun h => hzero (Or.inl h)
  have hb0 : block_cnode_cnt ≠ 0 := fun h => hzero (Or.inr h)
  by_cases hsub : step_cnode_cnt < block_cnode_cnt
  · cases hgeo : step_ptr.select_jobinfo.geometry with
    | none =>
      simp [verify_from_counts, hs0, hb0, hsub, hgeo, deny_job, check_fails, check_message,
        hfs, hla, hscan, hsteps, huid, hblock, hcnodes, hbcnt, hscnt, is_sub_block]
    | some tmp_geo =>
    cases hstart : step_ptr.select_jobinfo.conn_type with
    | none =>
      simp [verify_from_counts, hs0, hb0, hsub, hgeo, hstart, deny_job, check_fails,
        check_message, hfs, hla, hscan, hsteps, huid, hblock, hcnodes, hbcnt, hscnt,
        is_sub_block]
    | some tmp_start =>
      have h1 := uint16_ne_NO_VAL tmp_geo
      have h2 := uint16_ne_NO_VAL tmp_start
      rw [List.getD_eq_getElem?_getD] at h1 h2
      rw [verify_from_counts_sub _ runjob_list job_id step_id bg_block_id total_cnodes
        step_ptr.select_jobinfo block_cnode_cnt step_cnode_cnt tmp_geo tmp_start hs0 hb0 hsub
        hgeo hstart, verify_from_block_check_eq]
      by_cases hlen : bg_block_id.utf8ByteSize < 3
      · simp [hlen, deny_job, check_fails, check_message, hfs, hla, hscan, hsteps, huid,
          hblock, hcnodes, hbcnt, hscnt, is_sub_block, hs0, hb0, hsub, hgeo, hstart, h1, h2]
      · simp [hlen, deny_job, check_fails, check_message, hfs, hla, hscan, hsteps, huid,
          hblock, hcnodes, hbcnt, hscnt, is_sub_block, hs0, hb0, hsub, hgeo, hstart, h1, h2]
  · rw [verify_from_counts_whole _ runjob_list job_id step_id bg_block_id total_cnodes
      step_ptr.select_jobinfo block_cnode_cnt step_cnode_cnt hs0 hb0 hsub,
      verify_from_block_check_eq]
    by_cases hlen : bg_block_id.utf8ByteSize < 3
    · simp [hlen, deny_job, check_fails, check_message, hfs, hla, hscan, hsteps, huid,
        hblock, hcnodes, hbcnt, hscnt, is_sub_block, hs0, hb0, hsub]
    · simp [hlen, deny_job, check_fails, check_message, hfs, hla, hscan, hsteps, huid,
        hblock, hcnodes, hbcnt, hscnt, is_sub_block, hs0, hb0, hsub]

/-- From the agreement of two managers: the second answers the lookup with
a first step that agrees with the first step of the first. -/
theorem same_until_step (c : Check) (mgr1 mgr2 : Manager) (verify : Verify)
    (resp1 : job_step_info_response_msg_t) (step1 : job_step_info_t)
    (rest1 : List job_step_info_t)
    (hla : lookup_answer mgr1 verify = some resp1) (hsteps : resp1.job_steps = step1 :: rest1)
    (hidx : check_index Check.manager_lookup ≤ check_index c)
    (hsame : same_until c mgr1 mgr2 verify) :
    ∃ resp2 step2 rest2, lookup_answer mgr2 verify = some resp2 ∧
      resp2.job_steps = step2 :: rest2 ∧ step1.user_id = step2.user_id ∧
      agree_upto c step1.select_jobinfo step2.select_jobinfo := by
  have h := hsame hidx
  rw [hla] at h
  cases h2 : lookup_answer mgr2 verify with
  | none => rw [h2] at h; exact absurd h (by simp)
  | some resp2 =>
    rw [h2] at h
    simp only [hsteps] at h
    cases hs2 : resp2.job_steps with
    | nil => rw [hs2] at h; exact absurd h (by simp)
    | cons step2 rest2 =>
      rw [hs2] at h
      exact ⟨resp2, step2, rest2, rfl, hs2, h.1, h.2⟩

/-- The callback is the same for two managers that agree up to the earliest
failing check: what the manager would answer after it is not asked. -/
theorem execute_verify_same_until (mgr1 mgr2 : Manager)
    (runjob_list : Option (List runjob_job_t)) (verify : Verify) (c : Check)
    (hfirst : first_failure mgr1 verify = some c)
    (hsame : same_until c mgr1 mgr2 verify) :
    execute_verify mgr2 runjob_list verify = execute_verify mgr1 runjob_list verify := by
  rcases hscan : scan_envs verify.envs NO_VAL NO_VAL 0 with ⟨job_id, step_id, found⟩
  by_cases hfound : found = looking_for
  swap
  · simp [execute_verify, hscan, hfound]
  subst hfound
  have hl2 : ∀ resp2, lookup_answer mgr2 verify = resp2 →
      mgr2.slurm_get_job_steps job_id step_id = resp2 := by
    intro resp2 h
    simpa [lookup_answer, hscan] using h
  cases hmgr : mgr1.slurm_get_job_steps job_id step_id with
  | none =>
    have hla : lookup_answer mgr1 verify = none := by simp [lookup_answer, hscan, hmgr]
    have hff : first_failure mgr1 verify = some Check.manager_lookup := by
      rw [first_failure_eq]; simp [check_fails, hla, hscan]
    rw [hff] at hfirst
    injection hfirst with hc
    subst hc
    have h := hsame (by simp [check_index, check_order, List.indexOf_cons])
    rw [hla] at h
    cases h2 : lookup_answer mgr2 verify with
    | some resp2 => rw [h2] at h; exact absurd h (by simp)
    | none => simp [execute_verify, hscan, hmgr, hl2 _ h2]
  | some step_resp =>
  have hla : lookup_answer mgr1 verify = some step_resp := by
    simp [lookup_answer, hscan, hmgr]
  cases hsteps : step_resp.job_steps with
  | nil =>
    have hff : first_failure mgr1 verify = some Check.step_count := by
      rw [first_failure_eq]; simp [check_fails, hla, hscan, hsteps]
    rw [hff] at hfirst
    injection hfirst with hc
    subst hc
    have h := hsame (by simp [check_index, check_order, List.indexOf_cons])
    rw [hla] at h
    cases h2 : lookup_answer mgr2 verify with
    | none => rw [h2] at h; exact absurd h (by simp)
    | some resp2 =>
      rw [h2] at h
      simp only [hsteps] at h
      cases hs2 : resp2.job_steps with
      | cons step2 rest2 => rw [hs2] at h; exact absurd h (by simp)
      | nil => simp [execute_verify, hscan, hmgr, hsteps, hl2 _ h2, hs2]
  | cons step_ptr rest =>
  have hfs : first_step mgr1 verify = some step_ptr := by
    simp [first_step, hla, hsteps]
  have hstep : ∀ ck : Check, first_failure mgr1 verify = some ck →
      check_index Check.manager_lookup ≤ check_index ck →
      ∃ step2 : job_step_info_t, step_ptr.user_id = step2.user_id ∧
        agree_upto c step_ptr.select_jobinfo step2.select_jobinfo ∧ c = ck ∧
        (execute_verify mgr2 runjob_list verify = execute_verify mgr1 runjob_list verify ↔
          verify_from_step verify runjob_list job_id step_id step2 =
            verify_from_step verify runjob_list job_id step_id step_ptr) := by
    intro ck hff hidx
    rw [hff] at hfirst
    injection hfirst with hc
    subst hc
    obtain ⟨resp2, step2, rest2, hla2, hsteps2, hu, hag⟩ :=
      same_until_step ck mgr1 mgr2 verify step_resp step_ptr rest hla hsteps hidx hsame
    refine ⟨step2, hu, hag, rfl, ?_⟩
    rw [execute_verify_of_step mgr1 runjob_list verify job_id step_id step_resp step_ptr rest
      hscan hmgr hsteps,
      execute_verify_of_step mgr2 runjob_list verify job_id step_id resp2 step2 rest2
      hscan (hl2 _ hla2) hsteps2]
  by_cases huid : verify.uid = step_ptr.user_id
  swap
  · obtain ⟨step2, hu, hag, hc, hiff⟩ := hstep Check.ownership
      (by rw [first_failure_eq]; simp [check_fails, hfs, hla, hscan, hsteps, huid])
      (by simp [check_index, check_order, List.indexOf_cons])
    rw [hiff]
    have huid2 : ¬ verify.uid = step2.user_id := by rw [← hu]; exact huid
    simp [verify_from_step, huid, huid2, hu]
  cases hblock : step_ptr.select_jobinfo.block_id with
  | none =>
    obtain ⟨step2, hu, hag, hc, hiff⟩ := hstep Check.block_id_fetch
      (by rw [first_failure_eq]; simp [check_fails, hfs, hla, hscan, hsteps, huid, hblock])
      (by simp [check_index, check_order, List.indexOf_cons])
    rw [hiff]
    subst hc
    simp [agree_upto, check_index, check_order, List.indexOf_cons, hblock] at hag
    simp [verify_from_step, huid, ← hu, hblock, ← hag]
  | some bg_block_id =>
  cases hcnodes : step_ptr.select_jobinfo.ionodes with
  | none =>
    obtain ⟨step2, hu, hag, hc, hiff⟩ := hstep Check.cnode_fetch
      (by rw [first_failure_eq]
          simp [check_fails, hfs, hla, hscan, hsteps, huid, hblock, hcnodes])
      (by simp [check_index, check_order, List.indexOf_cons])
    rw [hiff]
    subst hc
    simp [agree_upto, check_index, check_order, List.indexOf_cons, hblock, hcnodes] at hag
    simp [verify_from_step, huid, ← hu, hblock, hcnodes, ← hag.1, ← hag.2]
  | some total_cnodes =>
  cases hbcnt : step_ptr.select_jobinfo.block_node_cnt with
  | none =>
    obtain ⟨step2, hu, hag, hc, hiff⟩ := hstep Check.block_count_fetch
      (by rw [first_failure_eq]
          simp [check_fails, hfs, hla, hscan, hsteps, huid, hblock, hcnodes, hbcnt])
      (by simp [check_index, check_order, List.indexOf_cons])
    rw [hiff]
    subst hc
    simp [agree_upto, check_index, check_order, List.indexOf_cons, hblock, hcnodes,
      hbcnt] at hag
    simp [verify_from_step, huid, ← hu, hblock, hcnodes, hbcnt, ← hag.1, ← hag.2.1,
      ← hag.2.2]
  | some block_cnode_cnt =>
  cases hscnt : step_ptr.select_jobinfo.node_cnt with
  | none =>
    obtain ⟨step2, hu, hag, hc, hiff⟩ := hstep Check.step_count_fetch
      (by rw [first_failure_eq]
          simp [check_fails, hfs, hla, hscan, hsteps, huid, hblock, hcnodes, hbcnt, hscnt])
      (by simp [check_index, check_order, List.indexOf_cons])
    rw [hiff]
    subst hc
    simp [agree_upto, check_index, check_order, List.indexOf_cons, hblock, hcnodes,
      hbcnt, hscnt] at hag
    simp [verify_from_step, huid, ← hu, hblock, hcnodes, hbcnt, hscnt, ← hag.1, ← hag.2.1,
      ← hag.2.2.1, ← hag.2.2.2]
  | some step_cnode_cnt =>
  have hfetch : ∀ step2 : job_step_info_t, step_ptr.user_id = step2.user_id →
      some bg_block_id = step2.select_jobinfo.block_id →
      some total_cnodes = step2.select_jobinfo.ionodes →
      some block_cnode_cnt = step2.select_jobinfo.block_node_cnt →
      some step_cnode_cnt = step2.select_jobinfo.node_cnt →
      (verify_from_step verify runjob_list job_id step_id step2 =
          verify_from_step verify runjob_list job_id step_id step_ptr ↔
        verify_from_counts { verify with block := bg_block_id } runjob_list job_id step_id
            bg_block_id total_cnodes step2.select_jobinfo block_cnode_cnt step_cnode_cnt =
          verify_from_counts { verify with block := bg_block_id } runjob_list job_id step_id
            bg_block_id total_cnodes step_ptr.select_jobinfo block_cnode_cnt
            step_cnode_cnt) := by
    intro step2 hu e1 e2 e3 e4
    rw [verify_from_step_of_fetch verify runjob_list job_id step_id step_ptr bg_block_id
      total_cnodes block_cnode_cnt step_cnode_cnt huid hblock hcnodes hbcnt hscnt,
      verify_from_step_of_fetch verify runjob_list job_id step_id step2 bg_block_id
      total_cnodes block_cnode_cnt step_cnode_cnt (huid.trans hu) e1.symm e2.symm e3.symm
      e4.symm]
  by_cases hzero : step_cnode_cnt = 0 ∨ block_cnode_cnt = 0
  · obtain ⟨step2, hu, hag, hc, hiff⟩ := hstep Check.zero_counts
      (by rw [first_failure_eq]
          simp [check_fails, hfs, hla, hscan, hsteps, huid, hblock, hcnodes, hbcnt, hscnt,
            hzero])
      (by simp [check_index, check_order, List.indexOf_cons])
    rw [hiff]
    subst hc
    simp [agree_upto, check_index, check_order, List.indexOf_cons, hblock, hcnodes,
      hbcnt, hscnt] at hag
    rw [hfetch step2 hu hag.1 hag.2.1 hag.2.2.1 hag.2.2.2]
    simp [verify_from_counts, hzero]
  have hs0 : step_cnode_cnt ≠ 0 := fun h => hzero (Or.inl h)
  have hb0 : block_cnode_cnt ≠ 0 := fun h => hzero (Or.inr h)
  by_cases hsub : step_cnode_cnt < block_cnode_cnt
  · cases hgeo : step_ptr.select_jobinfo.geometry with
    | none =>
      obtain ⟨step2, hu, hag, hc, hiff⟩ := hstep Check.geometry_fetch
        (by rw [first_failure_eq]
            simp [check_fails, hfs, hla, hscan, hsteps, huid, hblock, hcnodes, hbcnt, hscnt,
              hs0, hb0, hsub, hgeo, is_sub_block])
        (by simp [check_index, check_order, List.indexOf_cons])
      rw [hiff]
      subst hc
      simp [agree_upto, check_index, check_order, List.indexOf_cons, hblock, hcnodes,
        hbcnt, hscnt, hgeo] at hag
      rw [hfetch step2 hu hag.1 hag.2.1 hag.2.2.1 hag.2.2.2.1]
      simp [verify_from_counts, hs0, hb0, hsub, hgeo, ← hag.2.2.2.2]
    | some tmp_geo =>
    cases hstart : step_ptr.select_jobinfo.conn_type with
    | none =>
      obtain ⟨step2, hu, hag, hc, hiff⟩ := hstep Check.start_location_fetch
        (by rw [first_failure_eq]
            simp [check_fails, hfs, hla, hscan, hsteps, huid, hblock, hcnodes, hbcnt, hscnt,
              hs0, hb0, hsub, hgeo, hstart, is_sub_block])
        (by simp [check_index, check_order, List.indexOf_cons])
      rw [hiff]
      subst hc
      simp [agree_upto, check_index, check_order, List.indexOf_cons, hblock, hcnodes,
        hbcnt, hscnt, hgeo, hstart] at hag
      rw [hfetch step2 hu hag.1 hag.2.1 hag.2.2.1 hag.2.2.2.1]
      simp [verify_from_counts, hs0, hb0, hsub, hgeo, hstart, ← hag.2.2.2.2.1,
        ← hag.2.2.2.2.2]
    | some tmp_start =>
      have h1 := uint16_ne_NO_VAL tmp_geo
      have h2 := uint16_ne_NO_VAL tmp_start
      rw [List.getD_eq_getElem?_getD] at h1 h2
      by_cases hlen : bg_block_id.utf8ByteSize < 3
      · obtain ⟨step2, hu, hag, hc, hiff⟩ := hstep Check.block_id_length
          (by rw [first_failure_eq]
              simp [check_fails, hfs, hla, hscan, hsteps, huid, hblock, hcnodes, hbcnt,
                hscnt, hs0, hb0, hsub, hgeo, hstart, is_sub_block, h1, h2, hlen])
          (by simp [check_index, check_order, List.indexOf_cons])
        rw [hiff]
        subst hc
        simp [agree_upto, check_index, check_order, List.indexOf_cons, hblock, hcnodes,
          hbcnt, hscnt, hgeo, hstart] at hag
        rw [hfetch step2 hu hag.1 hag.2.1 hag.2.2.1 hag.2.2.2.1]
        simp [verify_from_counts, hs0, hb0, hsub, hgeo, hstart, ← hag.2.2.2.2.1,
          ← hag.2.2.2.2.2]
      · have hff : first_failure mgr1 verify = none := by
          rw [first_failure_eq]
          simp [check_fails, hfs, hla, hscan, hsteps, huid, hblock, hcnodes, hbcnt,
            hscnt, hs0, hb0, hsub, hgeo, hstart, is_sub_block, h1, h2, hlen]
        rw [hff] at hfirst
        exact absurd hfirst (by simp)
  · by_cases hlen : bg_block_id.utf8ByteSize < 3
    · obtain ⟨step2, hu, hag, hc, hiff⟩ := hstep Check.block_id_length
        (by rw [first_failure_eq]
            simp [check_fails, hfs, hla, hscan, hsteps, huid, hblock, hcnodes, hbcnt,
              hscnt, hs0, hb0, hsub, is_sub_block, hlen])
        (by simp [check_index, check_order, List.indexOf_cons])
      rw [hiff]
      subst hc
      simp [agree_upto, check_index, check_order, List.indexOf_cons, hblock, hcnodes,
        hbcnt, hscnt] at hag
      rw [hfetch step2 hu hag.1 hag.2.1 hag.2.2.1 hag.2.2.2.1]
      simp [verify_from_counts, hs0, hb0, hsub, verify_from_corner_whole]
    · have hff : first_failure mgr1 verify = none := by
        rw [first_failure_eq]
        simp [check_fails, hfs, hla, hscan, hsteps, huid, hblock, hcnodes, hbcnt,
          hscnt, hs0, hb0, hsub, is_sub_block, hlen]
      rw [hff] at hfirst
      exact absurd hfirst (by simp)

/-- The test of the corner against `NO_VAL` never fails. -/
theorem check_fails_missing_corner (mgr : Manager) (verify : Verify) :
    check_fails mgr verify Check.missing_corner = false := by
  unfold check_fails
  cases first_step mgr verify with
  | none => rfl
  | some step =>
    cases hstart : step.select_jobinfo.conn_type with
    | none => simp [hstart]
    | some tmp_start =>
      have h := uint16_ne_NO_VAL tmp_start
      rw [List.getD_eq_getElem?_getD] at h
      simp [hstart, h]

/-- The test of the shape against `NO_VAL` never fails. -/
theorem check_fails_missing_shape (mgr : Manager) (verify : Verify) :
    check_fails mgr verify Check.missing_shape = false := by
  unfold check_fails
  cases first_step mgr verify with
  | none => rfl
  | some step =>
    cases hgeo : step.select_jobinfo.geometry with
    | none => simp [hgeo]
    | some tmp_geo =>
      have h := uint16_ne_NO_VAL tmp_geo
      rw [List.getD_eq_getElem?_getD] at h
      simp [hgeo, h]

/-- The earliest failing check does fail. -/
theorem first_failure_fails (mgr : Manager) (verify : Verify) (c : Check)
    (h : first_failure mgr verify = some c) : check_fails mgr verify c = true :=
  List.find?_some h

/-- The lines of the callback, by the earliest failing check. -/
theorem stderr_of_first_failure (mgr : Manager) (runjob_list : Option (List runjob_job_t))
    (verify : Verify) (m : Msg) (hm : m ∈ (execute_verify mgr runjob_list verify).stderr) :
    ∃ c, first_failure mgr verify = some c ∧ m ∈ check_message mgr verify c := by
  rw [(execute_verify_first_failure mgr runjob_list verify).2] at hm
  cases hff : first_failure mgr verify with
  | none => rw [hff] at hm; simp at hm
  | some c => rw [hff] at hm; exact ⟨c, rfl, hm⟩

/-- Which check writes which line. -/
theorem check_of_message (mgr : Manager) (verify : Verify) (c : Check) :
    (Msg.no_corner ∈ check_message mgr verify c → c = Check.missing_corner) ∧
    (Msg.no_shape ∈ check_message mgr verify c → c = Check.missing_shape) ∧
    (Msg.cant_get_geo ∈ check_message mgr verify c → c = Check.geometry_fetch) ∧
    (Msg.cant_get_start_loc ∈ check_message mgr verify c →
      c = Check.start_location_fetch) := by
  cases c <;> simp [check_message] <;> cases first_step mgr verify <;> simp

/-! ## The environment scan -/

/-- The number of entries whose key is one of the two that the scan looks
for bounds `found`. -/
theorem scan_envs_found_le (envs : List Environment) (job_id step_id found : Nat) :
    (scan_envs envs job_id step_id found).2.2 ≤ found + (envs.filter is_id_key).length := by
  induction envs generalizing job_id step_id found with
  | nil => simp [scan_envs]
  | cons env_var rest ih =>
    by_cases hj : env_var.key = "SLURM_JOB_ID"
    · have hk : is_id_key env_var = true := by simp [is_id_key, hj]
      by_cases hf : found + 1 = looking_for
      · simp only [scan_envs, hj, hf, List.filter_cons, hk, if_true, List.length_cons]
        omega
      · have := ih (to_uint32 (atoi env_var.value)) step_id (found + 1)
        simp only [scan_envs, hj, hf, List.filter_cons, hk, if_true, if_false, List.length_cons]
        omega
    · by_cases hs : env_var.key = "SLURM_STEP_ID"
      · have hk : is_id_key env_var = true := by simp [is_id_key, hs]
        by_cases hf : found + 1 = looking_for
        · simp only [scan_envs, if_neg hj, if_pos hs, hf, List.filter_cons, hk, if_true,
            List.length_cons]
          omega
        · have := ih job_id (to_uint32 (atoi env_var.value)) (found + 1)
          simp only [scan_envs, if_neg hj, if_pos hs, hf, List.filter_cons, hk, if_true,
            if_false, List.length_cons]
          omega
      · have hk : is_id_key env_var = false := by simp [is_id_key, hj, hs]
        by_cases hf : found = looking_for
        · simp only [scan_envs, hj, hs, hf, List.filter_cons, hk, if_true, if_false]
          omega
        · have := ih job_id step_id found
          simp only [scan_envs, hj, hs, hf, List.filter_cons, hk, if_false]
          simpa using this

/-- Fewer than two entries keyed `SLURM_JOB_ID` or `SLURM_STEP_ID`: the job
is denied without a message and the list is not touched. -/
theorem deny_of_fewer_than_two_keys (mgr : Manager) (runjob_list : Option (List runjob_job_t))
    (verify : Verify) (h : (verify.envs.filter is_id_key).length < 2) :
    execute_verify mgr runjob_list verify = deny_job verify runjob_list [] := by
  have hle := scan_envs_found_le verify.envs NO_VAL NO_VAL 0
  rcases hscan : scan_envs verify.envs NO_VAL NO_VAL 0 with ⟨job_id, step_id, found⟩
  rw [hscan] at hle
  have hne : found ≠ looking_for := by
    simp only [looking_for]
    simp only at hle
    omega
  simp [execute_verify, hscan, hne]

/-! ## The claims -/

/-- C1 (defect in the code): the scan counts the matching entries, not the
two distinct keys. The environment `envs_job_twice` has no `SLURM_STEP_ID`
key, yet `found` reaches `looking_for`, the manager is asked for step
`NO_VAL` of job 10, and the job is allowed and tracked with step id
`NO_VAL`. -/
theorem C1_missing_step_key_is_allowed :
    (∀ e ∈ envs_job_twice, e.key ≠ "SLURM_STEP_ID") ∧
    scan_envs envs_job_twice NO_VAL NO_VAL 0 = (10, NO_VAL, looking_for) ∧
    (execute_verify (sample_mgr 10 NO_VAL (step_whole "RMP000")) (some [])
      (sample_request 4100 1000 envs_job_twice)).deny_job = false ∧
    (execute_verify (sample_mgr 10 NO_VAL (step_whole "RMP000")) (some [])
      (sample_request 4100 1000 envs_job_twice)).runjob_list =
        some [⟨"RMP000", 4100, 10, NO_VAL, "512"⟩] := by
  decide

/-- C2: when the first step that the manager returns for the scanned ids is
owned by a user other than the requesting one, the job is denied, the list
and the `Verify` object are left as they were, and, when the scan found its
two entries, the one line written is the wrong-uid message. -/
theorem C2_owner_mismatch_denies (mgr : Manager) (runjob_list : Option (List runjob_job_t))
    (verify : Verify) (job_id step_id found : Nat) (step_resp : job_step_info_response_msg_t)
    (step_ptr : job_step_info_t) (rest : List job_step_info_t)
    (hscan : scan_envs verify.envs NO_VAL NO_VAL 0 = (job_id, step_id, found))
    (hmgr : mgr.slurm_get_job_steps job_id step_id = some step_resp)
    (hsteps : step_resp.job_steps = step_ptr :: rest)
    (huid : step_ptr.user_id ≠ verify.uid) :
    (execute_verify mgr runjob_list verify).deny_job = true ∧
    (execute_verify mgr runjob_list verify).runjob_list = runjob_list ∧
    (execute_verify mgr runjob_list verify).verify = verify ∧
    (found = looking_for → (execute_verify mgr runjob_list verify).stderr =
      [Msg.wrong_uid job_id step_id step_ptr.user_id verify.uid]) := by
  by_cases hfound : found = looking_for
  · subst hfound
    have huid2 : ¬ verify.uid = step_ptr.user_id := fun h => huid h.symm
    rw [execute_verify_of_step mgr runjob_list verify job_id step_id step_resp step_ptr rest
      hscan hmgr hsteps]
    simp [verify_from_step, huid2, deny_job]
  · simp [execute_verify, hscan, hfound, deny_job]

/-- C2, at the values of the spec: the step is owned by uid 1000 and the
request comes from uid 1001. -/
theorem C2_owner_mismatch_denies_witness :
    (execute_verify (sample_mgr 10 0 (step_whole "RMP000")) (some [])
      (sample_request 4200 1001 envs_10_0)).deny_job = true ∧
    (execute_verify (sample_mgr 10 0 (step_whole "RMP000")) (some [])
      (sample_request 4200 1001 envs_10_0)).runjob_list = some [] ∧
    (execute_verify (sample_mgr 10 0 (step_whole "RMP000")) (some [])
      (sample_request 4200 1001 envs_10_0)).verify = sample_request 4200 1001 envs_10_0 ∧
    (execute_verify (sample_mgr 10 0 (step_whole "RMP000")) (some [])
      (sample_request 4200 1001 envs_10_0)).stderr = [Msg.wrong_uid 10 0 1000 1001] :=
  have h := C2_owner_mismatch_denies (sample_mgr 10 0 (step_whole "RMP000")) (some [])
    (sample_request 4200 1001 envs_10_0) 10 0 2 ⟨[step_whole "RMP000"]⟩ (step_whole "RMP000") []
    (by decide) rfl rfl (by decide)
  ⟨h.1, h.2.1, h.2.2.1, h.2.2.2 rfl⟩

/-- C3: when the job is allowed, the scan found its two entries, the manager
lookup for the scanned ids succeeded with at least one step, the fetches of
the block id, the cnode string, the block node count and the step node count
all succeeded, and both counts are non-zero. -/
theorem C3_allow_needs_step_and_counts (mgr : Manager)
    (runjob_list : Option (List runjob_job_t)) (verify : Verify)
    (hallow : (execute_verify mgr runjob_list verify).deny_job = false) :
    ∃ (job_id step_id : Nat) (step_resp : job_step_info_response_msg_t)
      (step_ptr : job_step_info_t) (rest : List job_step_info_t)
      (bg_block_id total_cnodes : String) (block_cnode_cnt step_cnode_cnt : Int),
      scan_envs verify.envs NO_VAL NO_VAL 0 = (job_id, step_id, looking_for) ∧
      mgr.slurm_get_job_steps job_id step_id = some step_resp ∧
      step_resp.job_steps = step_ptr :: rest ∧
      step_ptr.select_jobinfo.block_id = some bg_block_id ∧
      step_ptr.select_jobinfo.ionodes = some total_cnodes ∧
      step_ptr.select_jobinfo.block_node_cnt = some block_cnode_cnt ∧
      step_ptr.select_jobinfo.node_cnt = some step_cnode_cnt ∧
      block_cnode_cnt ≠ 0 ∧ step_cnode_cnt ≠ 0 := by
  rcases execute_verify_cases mgr runjob_list verify with ⟨w, msgs, hdeny⟩ | hpath
  · rw [hdeny] at hallow
    simp [deny_job] at hallow
  · obtain ⟨job_id, step_id, step_resp, step_ptr, rest, bg_block_id, total_cnodes,
      block_cnode_cnt, step_cnode_cnt, h1, h2, h3, _, h5, h6, h7, h8, h9, h10, _⟩ := hpath
    exact ⟨job_id, step_id, step_resp, step_ptr, rest, bg_block_id, total_cnodes,
      block_cnode_cnt, step_cnode_cnt, h1, h2, h3, h5, h6, h7, h8, h10, h9⟩

/-- C3, at an allowed whole-block launch of job 10, step 0. -/
theorem C3_allow_needs_step_and_counts_witness :
    ∃ (job_id step_id : Nat) (step_resp : job_step_info_response_msg_t)
      (step_ptr : job_step_info_t) (rest : List job_step_info_t)
      (bg_block_id total_cnodes : String) (block_cnode_cnt step_cnode_cnt : Int),
      scan_envs (sample_request 4300 1000 envs_10_0).envs NO_VAL NO_VAL 0 =
        (job_id, step_id, looking_for) ∧
      (sample_mgr 10 0 (step_whole "RMP000")).slurm_get_job_steps job_id step_id =
        some step_resp ∧
      step_resp.job_steps = step_ptr :: rest ∧
      step_ptr.select_jobinfo.block_id = some bg_block_id ∧
      step_ptr.select_jobinfo.ionodes = some total_cnodes ∧
      step_ptr.select_jobinfo.block_node_cnt = some block_cnode_cnt ∧
      step_ptr.select_jobinfo.node_cnt = some step_cnode_cnt ∧
      block_cnode_cnt ≠ 0 ∧ step_cnode_cnt ≠ 0 :=
  C3_allow_needs_step_and_counts (sample_mgr 10 0 (step_whole "RMP000")) (some [])
    (sample_request 4300 1000 envs_10_0) (by decide)

/-- C4: when the scan, the lookup, the owner test, the four fetches, the
count test and (for a sub-block step) the two topology fetches all pass,
a block id of fewer than three characters (the empty one included) is denied
with the outside-of-SLURM message and the list is left as it was, and a block
id of three characters or more is allowed without any message. The length
is that of the `std::string`, in bytes. -/
theorem C4_short_block_id_is_denied (mgr : Manager) (runjob_list : Option (List runjob_job_t))
    (verify : Verify) (job_id step_id : Nat) (step_resp : job_step_info_response_msg_t)
    (step_ptr : job_step_info_t) (rest : List job_step_info_t)
    (bg_block_id total_cnodes : String) (block_cnode_cnt step_cnode_cnt : Int)
    (hscan : scan_envs verify.envs NO_VAL NO_VAL 0 = (job_id, step_id, looking_for))
    (hmgr : mgr.slurm_get_job_steps job_id step_id = some step_resp)
    (hsteps : step_resp.job_steps = step_ptr :: rest)
    (huid : verify.uid = step_ptr.user_id)
    (hblock : step_ptr.select_jobinfo.block_id = some bg_block_id)
    (hcnodes : step_ptr.select_jobinfo.ionodes = some total_cnodes)
    (hbcnt : step_ptr.select_jobinfo.block_node_cnt = some block_cnode_cnt)
    (hscnt : step_ptr.select_jobinfo.node_cnt = some step_cnode_cnt)
    (hs0 : step_cnode_cnt ≠ 0) (hb0 : block_cnode_cnt ≠ 0)
    (htopo : step_cnode_cnt < block_cnode_cnt →
      step_ptr.select_jobinfo.geometry.isSome = true ∧
      step_ptr.select_jobinfo.conn_type.isSome = true) :
    (bg_block_id.utf8ByteSize < 3 →
      (execute_verify mgr runjob_list verify).deny_job = true ∧
      (execute_verify mgr runjob_list verify).stderr = [Msg.outside_of_slurm] ∧
      (execute_verify mgr runjob_list verify).runjob_list = runjob_list) ∧
    (3 ≤ bg_block_id.utf8ByteSize →
      (execute_verify mgr runjob_list verify).deny_job = false ∧
      (execute_verify mgr runjob_list verify).stderr = []) := by
  rw [execute_verify_of_step mgr runjob_list verify job_id step_id step_resp step_ptr rest
    hscan hmgr hsteps,
    verify_from_step_of_fetch verify runjob_list job_id step_id step_ptr bg_block_id
    total_cnodes block_cnode_cnt step_cnode_cnt huid hblock hcnodes hbcnt hscnt]
  by_cases hsub : step_cnode_cnt < block_cnode_cnt
  · obtain ⟨hg, hc⟩ := htopo hsub
    obtain ⟨tmp_geo, hgeo⟩ := Option.isSome_iff_exists.mp hg
    obtain ⟨tmp_start, hstart⟩ := Option.isSome_iff_exists.mp hc
    rw [verify_from_counts_sub _ runjob_list job_id step_id bg_block_id total_cnodes
      step_ptr.select_jobinfo block_cnode_cnt step_cnode_cnt tmp_geo tmp_start hs0 hb0 hsub
      hgeo hstart, verify_from_block_check_eq]
    constructor
    · intro hlen
      simp [hlen, deny_job]
    · intro hlen
      have : ¬ bg_block_id.utf8ByteSize < 3 := by omega
      simp [this]
  · rw [verify_from_counts_whole _ runjob_list job_id step_id bg_block_id total_cnodes
      step_ptr.select_jobinfo block_cnode_cnt step_cnode_cnt hs0 hb0 hsub,
      verify_from_block_check_eq]
    constructor
    · intro hlen
      simp [hlen, deny_job]
    · intro hlen
      have : ¬ bg_block_id.utf8ByteSize < 3 := by omega
      simp [this]

/-- C4, at a whole-block step of job 10: the two-character block id `R0` is
denied, the block id `RMP000` is allowed. -/
theorem C4_short_block_id_is_denied_witness :
    ("R0".utf8ByteSize < 3 ∧
      (execute_verify (sample_mgr 10 0 (step_whole "R0")) (some [])
        (sample_request 4400 1000 envs_10_0)).deny_job = true ∧
      (execute_verify (sample_mgr 10 0 (step_whole "R0")) (some [])
        (sample_request 4400 1000 envs_10_0)).stderr = [Msg.outside_of_slurm] ∧
      (execute_verify (sample_mgr 10 0 (step_whole "R0")) (some [])
        (sample_request 4400 1000 envs_10_0)).runjob_list = some []) ∧
    (3 ≤ "RMP000".utf8ByteSize ∧
      (execute_verify (sample_mgr 10 0 (step_whole "RMP000")) (some [])
        (sample_request 4400 1000 envs_10_0)).deny_job = false ∧
      (execute_verify (sample_mgr 10 0 (step_whole "RMP000")) (some [])
        (sample_request 4400 1000 envs_10_0)).stderr = []) :=
  ⟨⟨by decide,
    (C4_short_block_id_is_denied (sample_mgr 10 0 (step_whole "R0")) (some [])
      (sample_request 4400 1000 envs_10_0) 10 0 ⟨[step_whole "R0"]⟩ (step_whole "R0") []
      "R0" "512" 512 512 (by decide) rfl rfl rfl rfl rfl rfl rfl (by decide) (by decide)
      (fun h => absurd h (by decide))).1 (by decide)⟩,
   ⟨by decide,
    (C4_short_block_id_is_denied (sample_mgr 10 0 (step_whole "RMP000")) (some [])
      (sample_request 4400 1000 envs_10_0) 10 0 ⟨[step_whole "RMP000"]⟩ (step_whole "RMP000") []
      "RMP000" "512" 512 512 (by decide) rfl rfl rfl rfl rfl rfl rfl (by decide) (by decide)
      (fun h => absurd h (by decide))).2 (by decide)⟩⟩

/-- A step with fewer nodes than its block (both counts non-zero) whose
geometry fetch or start-location fetch fails is denied: the list is left as
it was and neither a shape nor a corner is set. When the checks before the
counts pass, the one line written is the failed-geometry or the
failed-start-location message. -/
theorem failed_topology_fetch_is_denied (mgr : Manager)
    (runjob_list : Option (List runjob_job_t)) (verify : Verify) (job_id step_id found : Nat)
    (step_resp : job_step_info_response_msg_t)
    (step_ptr : job_step_info_t) (rest : List job_step_info_t)
    (block_cnode_cnt step_cnode_cnt : Int)
    (hscan : scan_envs verify.envs NO_VAL NO_VAL 0 = (job_id, step_id, found))
    (hmgr : mgr.slurm_get_job_steps job_id step_id = some step_resp)
    (hsteps : step_resp.job_steps = step_ptr :: rest)
    (hbcnt : step_ptr.select_jobinfo.block_node_cnt = some block_cnode_cnt)
    (hscnt : step_ptr.select_jobinfo.node_cnt = some step_cnode_cnt)
    (hs0 : step_cnode_cnt ≠ 0) (hb0 : block_cnode_cnt ≠ 0)
    (hsub : step_cnode_cnt < block_cnode_cnt)
    (habsent : step_ptr.select_jobinfo.geometry = none ∨
      step_ptr.select_jobinfo.conn_type = none) :
    (execute_verify mgr runjob_list verify).deny_job = true ∧
    (execute_verify mgr runjob_list verify).runjob_list = runjob_list ∧
    (execute_verify mgr runjob_list verify).verify.shape = verify.shape ∧
    (execute_verify mgr runjob_list verify).verify.corner = verify.corner ∧
    (found = looking_for → verify.uid = step_ptr.user_id →
      step_ptr.select_jobinfo.block_id.isSome = true →
      step_ptr.select_jobinfo.ionodes.isSome = true →
      (execute_verify mgr runjob_list verify).stderr = [Msg.cant_get_geo] ∨
      (execute_verify mgr runjob_list verify).stderr = [Msg.cant_get_start_loc]) := by
  by_cases hfound : found = looking_for
  swap
  · simp [execute_verify, hscan, hfound, deny_job]
  subst hfound
  rw [execute_verify_of_step mgr runjob_list verify job_id step_id step_resp step_ptr rest
    hscan hmgr hsteps]
  by_cases huid : verify.uid = step_ptr.user_id
  swap
  · simp [verify_from_step, huid, deny_job]
  cases hblock : step_ptr.select_jobinfo.block_id with
  | none => simp [verify_from_step, huid, hblock, deny_job]
  | some bg_block_id =>
  cases hcnodes : step_ptr.select_jobinfo.ionodes with
  | none => simp [verify_from_step, huid, hblock, hcnodes, deny_job]
  | some total_cnodes =>
  rw [verify_from_step_of_fetch verify runjob_list job_id step_id step_ptr bg_block_id
    total_cnodes block_cnode_cnt step_cnode_cnt huid hblock hcnodes hbcnt hscnt]
  cases hgeo : step_ptr.select_jobinfo.geometry with
  | none => simp [verify_from_counts, hs0, hb0, hsub, hgeo, deny_job]
  | some tmp_geo =>
    cases hstart : step_ptr.select_jobinfo.conn_type with
    | none => simp [verify_from_counts, hs0, hb0, hsub, hgeo, hstart, deny_job]
    | some tmp_start =>
      rw [hgeo, hstart] at habsent
      simp at habsent

/-- The failed geometry fetch at the values of the spec: 128 nodes on a
block of 512. -/
theorem failed_topology_fetch_is_denied_example :
    (execute_verify (sample_mgr 10 0 (step_sub none (some start_zeros))) (some [])
      (sample_request 4500 1000 envs_10_0)).deny_job = true ∧
    (execute_verify (sample_mgr 10 0 (step_sub none (some start_zeros))) (some [])
      (sample_request 4500 1000 envs_10_0)).runjob_list = some [] ∧
    (execute_verify (sample_mgr 10 0 (step_sub none (some start_zeros))) (some [])
      (sample_request 4500 1000 envs_10_0)).verify.shape = none ∧
    (execute_verify (sample_mgr 10 0 (step_sub none (some start_zeros))) (some [])
      (sample_request 4500 1000 envs_10_0)).verify.corner = none ∧
    ((execute_verify (sample_mgr 10 0 (step_sub none (some start_zeros))) (some [])
        (sample_request 4500 1000 envs_10_0)).stderr = [Msg.cant_get_geo] ∨
      (execute_verify (sample_mgr 10 0 (step_sub none (some start_zeros))) (some [])
        (sample_request 4500 1000 envs_10_0)).stderr = [Msg.cant_get_start_loc]) :=
  have h := failed_topology_fetch_is_denied
    (sample_mgr 10 0 (step_sub none (some start_zeros)))
    (some []) (sample_request 4500 1000 envs_10_0) 10 0 2
    ⟨[step_sub none (some start_zeros)]⟩ (step_sub none (some start_zeros)) [] 512 128
    (by decide) rfl rfl rfl rfl (by decide) (by decide) (by decide) (Or.inl rfl)
  ⟨h.1, h.2.1, h.2.2.1, h.2.2.2.1, h.2.2.2.2 rfl rfl rfl rfl⟩

/-- C5 (defect in the code): the source tests `geo[0]` and
`start_coords[0]` against `NO_VAL` to deny a sub-block job whose shape or
corner was not given, but the cells are copied from 16-bit values and
`NO_VAL` has 32 bits, so the tests never fail. A step of 128 nodes on a block
of 512 whose geometry comes back unset, every cell 65534 (the value of
`NO_VAL` in a `uint16_t`), is allowed, with that unset vector as its shape,
and is tracked. -/
theorem C5_unset_geometry_is_allowed :
    NO_VAL % 65536 = 65534 ∧
    geo_unset.vals = [65534, 65534, 65534, 65534, 65534] ∧
    (execute_verify (sample_mgr 10 0 (step_sub (some geo_unset) (some start_zeros))) (some [])
      (sample_request 4501 1000 envs_10_0)).deny_job = false ∧
    (execute_verify (sample_mgr 10 0 (step_sub (some geo_unset) (some start_zeros))) (some [])
      (sample_request 4501 1000 envs_10_0)).verify.shape =
        some [65534, 65534, 65534, 65534, 65534] ∧
    (execute_verify (sample_mgr 10 0 (step_sub (some geo_unset) (some start_zeros))) (some [])
      (sample_request 4501 1000 envs_10_0)).stderr = [] ∧
    (execute_verify (sample_mgr 10 0 (step_sub (some geo_unset) (some start_zeros))) (some [])
      (sample_request 4501 1000 envs_10_0)).runjob_list =
        some [⟨"RMP000", 4501, 10, 0, "512"⟩] := by
  decide

/-- C6: when a step with fewer nodes than its block is allowed, the geometry
fetch and the start-location fetch both succeeded, the shape of the decision
is the fetched geometry vector and the corner is the fetched start-location
vector, value for value in the same order, each of `NodeDims` components. -/
theorem C6_sub_block_allow_copies_topology (mgr : Manager)
    (runjob_list : Option (List runjob_job_t)) (verify : Verify) (job_id step_id found : Nat)
    (step_resp : job_step_info_response_msg_t)
    (step_ptr : job_step_info_t) (rest : List job_step_info_t)
    (block_cnode_cnt step_cnode_cnt : Int)
    (hscan : scan_envs verify.envs NO_VAL NO_VAL 0 = (job_id, step_id, found))
    (hmgr : mgr.slurm_get_job_steps job_id step_id = some step_resp)
    (hsteps : step_resp.job_steps = step_ptr :: rest)
    (hbcnt : step_ptr.select_jobinfo.block_node_cnt = some block_cnode_cnt)
    (hscnt : step_ptr.select_jobinfo.node_cnt = some step_cnode_cnt)
    (hsub : step_cnode_cnt < block_cnode_cnt)
    (hallow : (execute_verify mgr runjob_list verify).deny_job = false) :
    ∃ tmp_geo tmp_start : Uint16Buf,
      step_ptr.select_jobinfo.geometry = some tmp_geo ∧
      step_ptr.select_jobinfo.conn_type = some tmp_start ∧
      (execute_verify mgr runjob_list verify).verify.shape = some tmp_geo.vals ∧
      (execute_verify mgr runjob_list verify).verify.corner = some tmp_start.vals ∧
      tmp_geo.vals.length = NodeDims ∧ tmp_start.vals.length = NodeDims := by
  rcases execute_verify_cases mgr runjob_list verify with ⟨w, msgs, hdeny⟩ | hpath
  · rw [hdeny] at hallow
    simp [deny_job] at hallow
  · obtain ⟨job_id2, step_id2, step_resp2, step_ptr2, rest2, bg_block_id, total_cnodes,
      block_cnode_cnt2, step_cnode_cnt2, h1, h2, h3, _, _, _, h7, h8, _, _, _, _, _, _,
      hshape⟩ := hpath
    rw [hscan] at h1
    injection h1 with hj h1
    injection h1 with hs _
    subst hj hs
    rw [hmgr] at h2
    injection h2 with h2
    subst h2
    rw [hsteps] at h3
    injection h3 with h3 _
    subst h3
    rw [hbcnt] at h7
    rw [hscnt] at h8
    injection h7 with h7
    injection h8 with h8
    subst h7 h8
    rcases hshape with ⟨hwhole, _⟩ | ⟨_, tmp_geo, tmp_start, hgeo, hstart, hv⟩
    · exact absurd hsub hwhole
    · refine ⟨tmp_geo, tmp_start, hgeo, hstart, ?_, ?_, tmp_geo.size_eq, tmp_start.size_eq⟩
      · rw [hv]
      · rw [hv]

/-- C6, at the values of the spec: 128 nodes on a block of 512, geometry
`[1,1,1,1,1]` and start location `[0,0,0,0,0]`. -/
theorem C6_sub_block_allow_copies_topology_witness :
    (execute_verify (sample_mgr 10 0 (step_sub (some geo_ones) (some start_zeros))) (some [])
      (sample_request 4600 1000 envs_10_0)).deny_job = false ∧
    ∃ tmp_geo tmp_start : Uint16Buf,
      (step_sub (some geo_ones) (some start_zeros)).select_jobinfo.geometry = some tmp_geo ∧
      (step_sub (some geo_ones) (some start_zeros)).select_jobinfo.conn_type = some tmp_start ∧
      (execute_verify (sample_mgr 10 0 (step_sub (some geo_ones) (some start_zeros))) (some [])
        (sample_request 4600 1000 envs_10_0)).verify.shape = some tmp_geo.vals ∧
      (execute_verify (sample_mgr 10 0 (step_sub (some geo_ones) (some start_zeros))) (some [])
        (sample_request 4600 1000 envs_10_0)).verify.corner = some tmp_start.vals ∧
      tmp_geo.vals.length = NodeDims ∧ tmp_start.vals.length = NodeDims :=
  ⟨by decide,
   C6_sub_block_allow_copies_topology
    (sample_mgr 10 0 (step_sub (some geo_ones) (some start_zeros))) (some [])
    (sample_request 4600 1000 envs_10_0) 10 0 2
    ⟨[step_sub (some geo_ones) (some start_zeros)]⟩
    (step_sub (some geo_ones) (some start_zeros)) [] 512 128
    (by decide) rfl rfl rfl rfl (by decide) (by decide)⟩

/-- C7: when the step has at least as many nodes as its block, the verify
callback does not depend on the geometry and start-location answers of the
manager: two managers whose answers agree once these two fields are removed
give the same outcome (decision, list and messages), and the shape and the
corner of the `Verify` object are left as they were. -/
theorem C7_whole_block_ignores_topology (mgr1 mgr2 : Manager)
    (runjob_list : Option (List runjob_job_t)) (verify : Verify) (job_id step_id found : Nat)
    (step_resp : job_step_info_response_msg_t)
    (step_ptr : job_step_info_t) (rest : List job_step_info_t)
    (block_cnode_cnt step_cnode_cnt : Int)
    (hsame : ∀ j s, (mgr1.slurm_get_job_steps j s).map erase_topology_resp =
      (mgr2.slurm_get_job_steps j s).map erase_topology_resp)
    (hscan : scan_envs verify.envs NO_VAL NO_VAL 0 = (job_id, step_id, found))
    (hmgr : mgr1.slurm_get_job_steps job_id step_id = some step_resp)
    (hsteps : step_resp.job_steps = step_ptr :: rest)
    (hbcnt : step_ptr.select_jobinfo.block_node_cnt = some block_cnode_cnt)
    (hscnt : step_ptr.select_jobinfo.node_cnt = some step_cnode_cnt)
    (hwhole : ¬ step_cnode_cnt < block_cnode_cnt) :
    execute_verify mgr1 runjob_list verify = execute_verify mgr2 runjob_list verify ∧
    (execute_verify mgr1 runjob_list verify).verify.shape = verify.shape ∧
    (execute_verify mgr1 runjob_list verify).verify.corner = verify.corner := by
  by_cases hfound : found = looking_for
  swap
  · simp [execute_verify, hscan, hfound, deny_job]
  subst hfound
  have h := hsame job_id step_id
  rw [hmgr] at h
  cases hmgr2 : mgr2.slurm_get_job_steps job_id step_id with
  | none => rw [hmgr2] at h; simp at h
  | some step_resp2 =>
  rw [hmgr2] at h
  simp only [Option.map_some', Option.some.injEq, erase_topology_resp, hsteps, List.map_cons,
    job_step_info_response_msg_t.mk.injEq] at h
  cases hsteps2 : step_resp2.job_steps with
  | nil => rw [hsteps2] at h; simp at h
  | cons step_ptr2 rest2 =>
  rw [hsteps2] at h
  simp only [List.map_cons, List.cons.injEq] at h
  have herase := h.1
  have hb2 : step_ptr2.select_jobinfo.block_node_cnt = some block_cnode_cnt := by
    have := congrArg (fun x => x.select_jobinfo.block_node_cnt) herase
    simp only [erase_topology] at this
    rw [← this, hbcnt]
  have hs2 : step_ptr2.select_jobinfo.node_cnt = some step_cnode_cnt := by
    have := congrArg (fun x => x.select_jobinfo.node_cnt) herase
    simp only [erase_topology] at this
    rw [← this, hscnt]
  rw [execute_verify_of_step mgr1 runjob_list verify job_id step_id step_resp step_ptr rest
    hscan hmgr hsteps,
    execute_verify_of_step mgr2 runjob_list verify job_id step_id step_resp2 step_ptr2 rest2
    hscan hmgr2 hsteps2,
    verify_from_step_erase verify runjob_list job_id step_id step_ptr2 block_cnode_cnt
      step_cnode_cnt hb2 hs2 hwhole, ← herase,
    ← verify_from_step_erase verify runjob_list job_id step_id step_ptr block_cnode_cnt
      step_cnode_cnt hbcnt hscnt hwhole]
  refine ⟨rfl, ?_⟩
  by_cases huid : verify.uid = step_ptr.user_id
  swap
  · simp [verify_from_step, huid, deny_job]
  cases hblock : step_ptr.select_jobinfo.block_id with
  | none => simp [verify_from_step, huid, hblock, deny_job]
  | some bg_block_id =>
  cases hcnodes : step_ptr.select_jobinfo.ionodes with
  | none => simp [verify_from_step, huid, hblock, hcnodes, deny_job]
  | some total_cnodes =>
  rw [verify_from_step_of_fetch verify runjob_list job_id step_id step_ptr bg_block_id
    total_cnodes block_cnode_cnt step_cnode_cnt huid hblock hcnodes hbcnt hscnt]
  by_cases hzero : step_cnode_cnt = 0 ∨ block_cnode_cnt = 0
  · simp [verify_from_counts, hzero, deny_job]
  · have hs0 : step_cnode_cnt ≠ 0 := fun h0 => hzero (Or.inl h0)
    have hb0 : block_cnode_cnt ≠ 0 := fun h0 => hzero (Or.inr h0)
    rw [verify_from_counts_whole _ runjob_list job_id step_id bg_block_id total_cnodes
      step_ptr.select_jobinfo block_cnode_cnt step_cnode_cnt hs0 hb0 hwhole,
      verify_from_block_check_eq]
    split <;> simp [deny_job]

/-- C7, at the values of the spec: 512 nodes on a block of 512, once without
and once with a geometry and a start location; the job is allowed with the
shape and the corner unset. -/
theorem C7_whole_block_ignores_topology_witness :
    (execute_verify (sample_mgr 10 0 (step_whole "RMP000")) (some [])
      (sample_request 4700 1000 envs_10_0)).deny_job = false ∧
    (execute_verify (sample_mgr 10 0 (step_whole "RMP000")) (some [])
        (sample_request 4700 1000 envs_10_0) =
      execute_verify
        (sample_mgr 10 0 (sample_step 1000 "RMP000" 512 512 (some geo_ones) (some start_zeros)))
        (some []) (sample_request 4700 1000 envs_10_0) ∧
    (execute_verify (sample_mgr 10 0 (step_whole "RMP000")) (some [])
      (sample_request 4700 1000 envs_10_0)).verify.shape = none ∧
    (execute_verify (sample_mgr 10 0 (step_whole "RMP000")) (some [])
      (sample_request 4700 1000 envs_10_0)).verify.corner = none) :=
  ⟨by decide,
   C7_whole_block_ignores_topology (sample_mgr 10 0 (step_whole "RMP000"))
    (sample_mgr 10 0 (sample_step 1000 "RMP000" 512 512 (some geo_ones) (some start_zeros)))
    (some []) (sample_request 4700 1000 envs_10_0) 10 0 2
    ⟨[step_whole "RMP000"]⟩ (step_whole "RMP000") [] 512 512
    (by
      intro j s
      simp only [sample_mgr]
      split <;> rfl)
    (by decide) rfl rfl rfl rfl (by decide)⟩

/-- C8 (as stated, fails): after the teardown the list is `NULL`; a launch
that passes every check is then allowed, and the list after the call is not
the list before it with one entry appended: nothing is appended. -/
theorem C8_allow_on_closed_list_appends_nothing :
    (execute_verify (sample_mgr 10 0 (step_whole "RMP000")) none
      (sample_request 4800 1000 envs_10_0)).deny_job = false ∧
    (execute_verify (sample_mgr 10 0 (step_whole "RMP000")) none
      (sample_request 4800 1000 envs_10_0)).runjob_list = none ∧
    ¬ ∃ runjob_job,
      tracked_jobs (execute_verify (sample_mgr 10 0 (step_whole "RMP000")) none
        (sample_request 4800 1000 envs_10_0)).runjob_list =
      tracked_jobs none ++ [runjob_job] := by
  refine ⟨by decide, by decide, ?_⟩
  rintro ⟨runjob_job, h⟩
  have h2 : (execute_verify (sample_mgr 10 0 (step_whole "RMP000")) none
      (sample_request 4800 1000 envs_10_0)).runjob_list = none := by decide
  rw [h2] at h
  simp [tracked_jobs] at h

/-- C8 (amended): every verify call either denies the job and leaves the
list exactly as it was, or allows it and passes exactly one entry, which
carries the pid of the request, to `append_if_open`: an open list gets this
one entry appended at its tail, a list that was torn down stays torn
down. -/
theorem C8_one_append_on_allow_none_on_deny (mgr : Manager)
    (runjob_list : Option (List runjob_job_t)) (verify : Verify) :
    ((execute_verify mgr runjob_list verify).deny_job = true ∧
      (execute_verify mgr runjob_list verify).runjob_list = runjob_list) ∨
    ((execute_verify mgr runjob_list verify).deny_job = false ∧
      ∃ runjob_job : runjob_job_t, runjob_job.pid = verify.pid ∧
        (execute_verify mgr runjob_list verify).runjob_list =
          append_if_open runjob_list runjob_job ∧
        (∀ l, runjob_list = some l →
          (execute_verify mgr runjob_list verify).runjob_list = some (l ++ [runjob_job])) ∧
        (runjob_list = none → (execute_verify mgr runjob_list verify).runjob_list = none)) := by
  cases hd : (execute_verify mgr runjob_list verify).deny_job with
  | true => exact Or.inl ⟨rfl, deny_keeps_list mgr runjob_list verify hd⟩
  | false =>
    right
    obtain ⟨job_id, step_id, _, _, _, bg_block_id, total_cnodes, _, _, _, _, _, hlist, _⟩ :=
      allow_descriptor mgr runjob_list verify hd
    refine ⟨rfl, ⟨bg_block_id, verify.pid, job_id, step_id, total_cnodes⟩, rfl, hlist, ?_, ?_⟩
    · intro l hl
      rw [hlist, hl]
      rfl
    · intro hn
      rw [hlist, hn]
      rfl

/-- C9 (defect in the code, the one of C1): the environment `envs_two_jobs`
has no `SLURM_STEP_ID` entry, the job is allowed, and the entry appended to
the list carries the step id `NO_VAL`, which is the value of no environment
entry; its job id is that of the second `SLURM_JOB_ID` entry. -/
theorem C9_tracked_step_id_not_from_environment :
    (∀ e ∈ envs_two_jobs, e.key ≠ "SLURM_STEP_ID") ∧
    (∀ e ∈ envs_two_jobs, to_uint32 (atoi e.value) ≠ NO_VAL) ∧
    (execute_verify (sample_mgr 11 NO_VAL (step_whole "RMP000")) (some [])
      (sample_request 4900 1000 envs_two_jobs)).deny_job = false ∧
    (execute_verify (sample_mgr 11 NO_VAL (step_whole "RMP000")) (some [])
      (sample_request 4900 1000 envs_two_jobs)).runjob_list =
        some [⟨"RMP000", 4900, 11, NO_VAL, "512"⟩] := by
  decide

/-- C10: a termination event for a pid that the open list tracks takes out
exactly one entry, the first whose pid it is, and keeps every other entry in
place and in order; for a pid that is not tracked the list is left as it
was; and a termination for the pid of a request that was not tracked before
and has just been allowed gives back the list as it was before the
allow. -/
theorem C10_termination_removes_one_entry (mgr : Manager)
    (runjob_list : Option (List runjob_job_t)) (verify : Verify) (data : Terminated) :
    (∀ l, runjob_list = some l → (∃ x ∈ l, x.pid = data.pid) →
      ∃ l1 x l2, l = l1 ++ x :: l2 ∧ x.pid = data.pid ∧ (∀ y ∈ l1, y.pid ≠ data.pid) ∧
        (execute_terminated runjob_list data).runjob_list = some (l1 ++ l2)) ∧
    ((∀ y ∈ tracked_jobs runjob_list, y.pid ≠ data.pid) →
      (execute_terminated runjob_list data).runjob_list = runjob_list) ∧
    ((∀ y ∈ tracked_jobs runjob_list, y.pid ≠ verify.pid) → data.pid = verify.pid →
      (execute_verify mgr runjob_list verify).deny_job = false →
      (execute_terminated (execute_verify mgr runjob_list verify).runjob_list data).runjob_list =
        runjob_list) := by
  refine ⟨?_, ?_, ?_⟩
  · intro l hl htracked
    obtain ⟨l1, x, l2, h1, h2, h3, h4⟩ := list_remove_pid_tracked data.pid l htracked
    exact ⟨l1, x, l2, h1, h2, h3, by simp [hl, execute_terminated, h4]⟩
  · intro huntracked
    cases runjob_list with
    | none => rfl
    | some l =>
      have := list_remove_pid_untracked data.pid l huntracked
      simp [execute_terminated, this]
  · intro huntracked hpid hallow
    obtain ⟨job_id, step_id, _, _, _, bg_block_id, total_cnodes, _, _, _, _, _, hlist, _⟩ :=
      allow_descriptor mgr runjob_list verify hallow
    rw [hlist]
    cases runjob_list with
    | none => rfl
    | some l =>
      have := list_remove_pid_append data.pid l
        ⟨bg_block_id, verify.pid, job_id, step_id, total_cnodes⟩
        (fun y hy => by rw [hpid]; exact huntracked y hy) hpid.symm
      simp [append_if_open, execute_terminated, this]

/-- C10, at a list that tracks the pids 1, 2 and 3: the termination of pid 2
leaves the entries of 1 and 3; the termination of the untracked pid 2 after
an allow for pid 2, job 10, step 0 gives back the list of 1 and 3. -/
theorem C10_termination_removes_one_entry_witness :
    (∃ l1 x l2, [(⟨"RMP000", 1, 8, 0, "512"⟩ : runjob_job_t), ⟨"RMP000", 2, 9, 0, "512"⟩,
        ⟨"RMP000", 3, 9, 1, "512"⟩] = l1 ++ x :: l2 ∧ x.pid = 2 ∧ (∀ y ∈ l1, y.pid ≠ 2) ∧
      (execute_terminated (some [⟨"RMP000", 1, 8, 0, "512"⟩, ⟨"RMP000", 2, 9, 0, "512"⟩,
        ⟨"RMP000", 3, 9, 1, "512"⟩]) ⟨2, false, [], ""⟩).runjob_list = some (l1 ++ l2)) ∧
    (execute_terminated (some [⟨"RMP000", 1, 8, 0, "512"⟩, ⟨"RMP000", 3, 9, 1, "512"⟩])
      ⟨2, false, [], ""⟩).runjob_list =
        some [⟨"RMP000", 1, 8, 0, "512"⟩, ⟨"RMP000", 3, 9, 1, "512"⟩] ∧
    (execute_terminated (execute_verify (sample_mgr 10 0 (step_whole "RMP000"))
      (some [⟨"RMP000", 1, 8, 0, "512"⟩, ⟨"RMP000", 3, 9, 1, "512"⟩])
      (sample_request 2 1000 envs_10_0)).runjob_list ⟨2, false, [], ""⟩).runjob_list =
        some [⟨"RMP000", 1, 8, 0, "512"⟩, ⟨"RMP000", 3, 9, 1, "512"⟩] :=
  ⟨(C10_termination_removes_one_entry (sample_mgr 10 0 (step_whole "RMP000"))
      (some [⟨"RMP000", 1, 8, 0, "512"⟩, ⟨"RMP000", 2, 9, 0, "512"⟩, ⟨"RMP000", 3, 9, 1, "512"⟩])
      (sample_request 2 1000 envs_10_0) ⟨2, false, [], ""⟩).1 _ rfl
      ⟨⟨"RMP000", 2, 9, 0, "512"⟩, by decide, rfl⟩,
   (C10_termination_removes_one_entry (sample_mgr 10 0 (step_whole "RMP000"))
      (some [⟨"RMP000", 1, 8, 0, "512"⟩, ⟨"RMP000", 3, 9, 1, "512"⟩])
      (sample_request 2 1000 envs_10_0) ⟨2, false, [], ""⟩).2.1 (by decide),
   (C10_termination_removes_one_entry (sample_mgr 10 0 (step_whole "RMP000"))
      (some [⟨"RMP000", 1, 8, 0, "512"⟩, ⟨"RMP000", 3, 9, 1, "512"⟩])
      (sample_request 2 1000 envs_10_0) ⟨2, false, [], ""⟩).2.2 (by decide) rfl (by decide)⟩

/-- C13: for a termination event whose pid the open list tracks, the entry
reported is the one that is taken out of the list, the first with that pid,
and the lines written are those of exactly one kind, chosen in this order:
the kill-timeout line when the flag is set; otherwise the failed-node report
when the node list is not empty, whatever the message; otherwise the message
line, with the cnode string of the entry, when the message is not empty;
otherwise nothing. The failed-node report is the count line followed by
lines of the nodes: one line for each node when the text of every node fits
`tmp_char`, and only the lines written before the overflow, with the flag
set, when the text of some node does not fit. -/
theorem C13_termination_diagnostic_priority (l : List runjob_job_t) (data : Terminated)
    (htracked : ∃ x ∈ l, x.pid = data.pid) :
    ∃ l1 job l2, l = l1 ++ job :: l2 ∧ job.pid = data.pid ∧
      (∀ y ∈ l1, y.pid ≠ data.pid) ∧
      (execute_terminated (some l) data).runjob_list = some (l1 ++ l2) ∧
      (data.kill_timeout = true →
        (execute_terminated (some l) data).stderr =
          [Msg.had_kill_timeout job.job_id job.step_id] ∧
        (execute_terminated (some l) data).overflow = false) ∧
      (data.kill_timeout = false → data.software_error_nodes ≠ [] →
        (∃ lines, (execute_terminated (some l) data).stderr =
            Msg.nodes_fail job.job_id job.step_id data.software_error_nodes.length :: lines ∧
          ∀ m ∈ lines, ∃ i ∈ data.software_error_nodes,
            m = Msg.node_line i.location i.a i.b i.c i.d i.e (sprintf_coords i)) ∧
        ((∀ i ∈ data.software_error_nodes, sprintf_fits i = true) →
          (execute_terminated (some l) data).stderr =
            Msg.nodes_fail job.job_id job.step_id data.software_error_nodes.length ::
              data.software_error_nodes.map
                (fun i => Msg.node_line i.location i.a i.b i.c i.d i.e (sprintf_coords i)) ∧
          (execute_terminated (some l) data).overflow = false) ∧
        ((execute_terminated (some l) data).overflow = true ↔
          ∃ i ∈ data.software_error_nodes, sprintf_fits i = false)) ∧
      (data.kill_timeout = false → data.software_error_nodes = [] →
        data.message.isEmpty = false →
        (execute_terminated (some l) data).stderr =
          [Msg.had_message job.job_id job.step_id data.message job.total_cnodes] ∧
        (execute_terminated (some l) data).overflow = false) ∧
      (data.kill_timeout = false → data.software_error_nodes = [] →
        data.message.isEmpty = true →
        (execute_terminated (some l) data).stderr = [] ∧
        (execute_terminated (some l) data).overflow = false) := by
  obtain ⟨l1, x, l2, hl, hx, hl1, hrem⟩ := list_remove_pid_tracked data.pid l htracked
  refine ⟨l1, x, l2, hl, hx, hl1, by simp [execute_terminated, hrem], ?_, ?_, ?_, ?_⟩
  · intro hk
    simp [execute_terminated, hrem, terminated_diagnostics, hk]
  · intro hk hn
    refine ⟨⟨(node_lines data.software_error_nodes).1, ?_, ?_⟩, ?_, ?_⟩
    · simp [execute_terminated, hrem, terminated_diagnostics, hk, hn]
    · intro m hm
      obtain ⟨i, hi, _, hmi⟩ := node_lines_mem data.software_error_nodes m hm
      exact ⟨i, hi, hmi⟩
    · intro hfit
      simp [execute_terminated, hrem, terminated_diagnostics, hk, hn,
        node_lines_of_fits data.software_error_nodes hfit]
    · rw [← node_lines_overflow]
      simp [execute_terminated, hrem, terminated_diagnostics, hk, hn]
  · intro hk hn hm
    simp [execute_terminated, hrem, terminated_diagnostics, hk, hn, hm]
  · intro hk hn hm
    simp [execute_terminated, hrem, terminated_diagnostics, hk, hn, hm]

/-- C13, at the list of the pids 1, 2 and 3 and a termination of pid 2 that
carries a failed node at (0, 1, 2, 3, 1) and a message: the entry of pid 2
is taken out and only the failed-node report is written. -/
theorem C13_termination_diagnostic_priority_witness :
    ∃ l1 job l2, list_1_2_3 = l1 ++ job :: l2 ∧ job.pid = 2 ∧
      (∀ y ∈ l1, y.pid ≠ 2) ∧
      (execute_terminated (some list_1_2_3)
        ⟨2, false, [⟨"R00-M0-N00-J00", 0, 1, 2, 3, 1⟩], "abnormal"⟩).runjob_list =
          some (l1 ++ l2) ∧
      (execute_terminated (some list_1_2_3)
        ⟨2, false, [⟨"R00-M0-N00-J00", 0, 1, 2, 3, 1⟩], "abnormal"⟩).stderr =
          [Msg.nodes_fail job.job_id job.step_id 1,
           Msg.node_line "R00-M0-N00-J00" 0 1 2 3 1 "01231"] ∧
      (execute_terminated (some list_1_2_3)
        ⟨2, false, [⟨"R00-M0-N00-J00", 0, 1, 2, 3, 1⟩], "abnormal"⟩).overflow = false :=
  match C13_termination_diagnostic_priority list_1_2_3
    ⟨2, false, [⟨"R00-M0-N00-J00", 0, 1, 2, 3, 1⟩], "abnormal"⟩
    ⟨⟨"RMP000", 2, 9, 0, "512"⟩, by decide, rfl⟩ with
  | ⟨l1, job, l2, hl, hpid, hl1, hlist, _, hnodes, _⟩ =>
    ⟨l1, job, l2, hl, hpid, hl1, hlist,
      ((hnodes rfl (by decide)).2.1 (by decide)).1,
      ((hnodes rfl (by decide)).2.1 (by decide)).2⟩

/-- C14: for a termination event whose pid is not tracked, the one line
written on an open list is the could-not-find line, and nothing is written
once the list is torn down; in both cases the list is left as it was and no
kill-timeout, failed-node or message line is written, whatever the event
carries. -/
theorem C14_untracked_termination_diagnostic (runjob_list : Option (List runjob_job_t))
    (data : Terminated) (huntracked : ∀ y ∈ tracked_jobs runjob_list, y.pid ≠ data.pid) :
    (runjob_list.isSome = true →
      (execute_terminated runjob_list data).stderr = [Msg.couldnt_find_job data.pid]) ∧
    (runjob_list = none → (execute_terminated runjob_list data).stderr = []) ∧
    (Msg.couldnt_find_job data.pid ∈ (execute_terminated runjob_list data).stderr ↔
      runjob_list.isSome = true) ∧
    (∀ m ∈ (execute_terminated runjob_list data).stderr, m = Msg.couldnt_find_job data.pid) ∧
    (execute_terminated runjob_list data).runjob_list = runjob_list := by
  cases runjob_list with
  | none => simp [execute_terminated, terminated_diagnostics]
  | some l =>
    have := list_remove_pid_untracked data.pid l huntracked
    simp [execute_terminated, terminated_diagnostics, this]

/-- C14, at the list of the pids 1, 2 and 3 and a termination of pid 7 that
carries the kill-timeout flag, a failed node and a message. -/
theorem C14_untracked_termination_diagnostic_witness :
    (execute_terminated (some list_1_2_3)
      ⟨7, true, [⟨"R00-M0-N00-J00", 0, 1, 2, 3, 1⟩], "abnormal"⟩).stderr =
        [Msg.couldnt_find_job 7] :=
  (C14_untracked_termination_diagnostic (some list_1_2_3)
    ⟨7, true, [⟨"R00-M0-N00-J00", 0, 1, 2, 3, 1⟩], "abnormal"⟩ (by decide)).1 rfl

/-- C15 (defect in the code): `%u` prints a coordinate of ten or more with
two characters. For the node `node_a10`, whose coordinates are
(10, 0, 0, 0, 0), the formatted text is `100000`: six characters, not five,
and seven bytes with the terminator, one more than the buffer `tmp_char`
holds. In the termination callback the count line is written, then
`sprintf` writes past the end of `tmp_char`. -/
theorem C15_two_digit_coordinate_overflows :
    sprintf_coords node_a10 = "100000" ∧
    (sprintf_coords node_a10).length = 6 ∧
    (sprintf_coords node_a10).utf8ByteSize = 6 ∧
    tmp_char_size < (sprintf_coords node_a10).utf8ByteSize + 1 ∧
    sprintf_fits node_a10 = false ∧
    (execute_terminated (some list_1_2_3) ⟨2, false, [node_a10], ""⟩).stderr =
      [Msg.nodes_fail 9 0 1] ∧
    (execute_terminated (some list_1_2_3) ⟨2, false, [node_a10], ""⟩).overflow = true := by
  decide

/-- C17: the teardown leaves no entry and the `NULL` list; after it, through
any sequence of verify and termination callbacks, the list stays `NULL` and
tracks nothing, a further verify callback adds no entry, and a further
termination callback finds nothing and writes nothing. -/
theorem C17_torn_down_list_stays_closed (runjob_list : Option (List runjob_job_t))
    (events : List Event) (mgr : Manager) (verify : Verify) (data : Terminated) :
    plugin_destroy runjob_list = none ∧
    tracked_jobs (plugin_destroy runjob_list) = [] ∧
    run_events (plugin_destroy runjob_list) events = none ∧
    tracked_jobs (run_events (plugin_destroy runjob_list) events) = [] ∧
    (execute_verify mgr (run_events (plugin_destroy runjob_list) events) verify).runjob_list =
      none ∧
    execute_terminated (run_events (plugin_destroy runjob_list) events) data =
      ⟨none, [], false⟩ := by
  have h : run_events (plugin_destroy runjob_list) events = none := run_events_closed events
  rw [h]
  exact ⟨rfl, rfl, rfl, rfl, execute_verify_closed mgr verify, execute_terminated_closed data⟩

/-- C16 (as stated, fails): the job id value `10abc` has trailing garbage
and the step id value is empty, so neither parses as a non-negative
integer; `atoi` converts them to 10 and 0, the manager is asked for step
10.0 and the job is allowed. -/
theorem C16_unparsable_ids_are_allowed :
    parses_as_nat "10abc" = false ∧ parses_as_nat "" = false ∧
    scan_envs envs_garbage NO_VAL NO_VAL 0 = (10, 0, looking_for) ∧
    (execute_verify mgr_10_0 (some []) (sample_request 5600 1000 envs_garbage)).deny_job =
      false ∧
    (execute_verify mgr_10_0 (some []) (sample_request 5600 1000 envs_garbage)).runjob_list =
      some [⟨"RMP000", 5600, 10, 0, "512"⟩] := by
  decide

/-- C16 (amended): the values of the two ids are converted by `atoi` and
are not validated. When the first two entries keyed `SLURM_JOB_ID` or
`SLURM_STEP_ID` are one of each, the scan finds its two entries whatever
the values are, the ids of the manager lookup are the `atoi` conversions of
the two values, and the outcome is that of the lookup and of the checks
after it. For a value that is a non-empty string of decimal digits denoting
at most 2147483647, the id is the integer that the digits denote. -/
theorem C16_ids_are_atoi_of_values (mgr : Manager) (runjob_list : Option (List runjob_job_t))
    (verify : Verify) (tail : List Environment) (vj vs : String)
    (hkeys : verify.envs.filter is_id_key =
        ⟨"SLURM_JOB_ID", vj⟩ :: ⟨"SLURM_STEP_ID", vs⟩ :: tail ∨
      verify.envs.filter is_id_key =
        ⟨"SLURM_STEP_ID", vs⟩ :: ⟨"SLURM_JOB_ID", vj⟩ :: tail) :
    scan_envs verify.envs NO_VAL NO_VAL 0 =
      (to_uint32 (atoi vj), to_uint32 (atoi vs), looking_for) ∧
    execute_verify mgr runjob_list verify =
      (match mgr.slurm_get_job_steps (to_uint32 (atoi vj)) (to_uint32 (atoi vs)) with
       | none => deny_job verify runjob_list [Msg.get_job_steps_error]
       | some step_resp =>
         match step_resp.job_steps with
         | [] => deny_job verify runjob_list
             [Msg.no_steps_match (to_uint32 (atoi vj)) (to_uint32 (atoi vs))]
         | step_ptr :: _ =>
           verify_from_step verify runjob_list (to_uint32 (atoi vj)) (to_uint32 (atoi vs))
             step_ptr) ∧
    (parses_as_nat vj = true → decimal_value vj.toList ≤ 2147483647 →
      to_uint32 (atoi vj) = decimal_value vj.toList) ∧
    (parses_as_nat vs = true → decimal_value vs.toList ≤ 2147483647 →
      to_uint32 (atoi vs) = decimal_value vs.toList) := by
  have hscan := scan_envs_one_of_each verify.envs tail vj vs hkeys
  refine ⟨hscan, ?_, atoi_of_digits vj, atoi_of_digits vs⟩
  simp [execute_verify, hscan]

/-- C16, at the environment of job 10, step 0: the lookup is made for the
ids 10 and 0, the integers that the two values denote. -/
theorem C16_ids_are_atoi_of_values_witness :
    scan_envs envs_10_0 NO_VAL NO_VAL 0 = (to_uint32 (atoi "10"), to_uint32 (atoi "0"),
      looking_for) ∧
    to_uint32 (atoi "10") = decimal_value "10".toList ∧
    to_uint32 (atoi "0") = decimal_value "0".toList ∧
    decimal_value "10".toList = 10 ∧ decimal_value "0".toList = 0 :=
  have h := C16_ids_are_atoi_of_values mgr_10_0 (some []) (sample_request 5601 1000 envs_10_0)
    [] "10" "0" (Or.inl (by decide))
  ⟨h.1, h.2.2.1 (by decide) (by decide), h.2.2.2 (by decide) (by decide), by decide, by decide⟩

/-- C19: the callback denies exactly when one of the checks fails, taken in
the fixed order (the two keys, the lookup, the step count, the owner, the
fetches of the block id, the cnode string, the block count and the step
count, the zero counts, the fetches of the geometry and of the start
location, the missing corner, the missing shape, the length of the block
id); the line it writes is that of the earliest failing check; and its
outcome is the same for any other manager that agrees with this one on the
lookup and on the fetches up to that check, so that nothing after the
earliest failing check is asked of the manager. -/
theorem C19_earliest_failing_check_decides (mgr1 mgr2 : Manager)
    (runjob_list : Option (List runjob_job_t)) (verify : Verify) :
    (execute_verify mgr1 runjob_list verify).deny_job = (first_failure mgr1 verify).isSome ∧
    (execute_verify mgr1 runjob_list verify).stderr =
      (match first_failure mgr1 verify with
       | some c => check_message mgr1 verify c
       | none => []) ∧
    (∀ c, first_failure mgr1 verify = some c → same_until c mgr1 mgr2 verify →
      execute_verify mgr2 runjob_list verify = execute_verify mgr1 runjob_list verify) :=
  ⟨(execute_verify_first_failure mgr1 runjob_list verify).1,
   (execute_verify_first_failure mgr1 runjob_list verify).2,
   fun c hfirst hsame => execute_verify_same_until mgr1 mgr2 runjob_list verify c hfirst hsame⟩

/-- C19, at a request that fails the owner test, the count test and the
block id test: the earliest of the three is the owner test, its line is the
one written, and a manager that fails every fetch gives the same outcome. -/
theorem C19_earliest_failing_check_decides_witness :
    check_fails mgr_fails_many request_1001 Check.ownership = true ∧
    check_fails mgr_fails_many request_1001 Check.zero_counts = true ∧
    check_fails mgr_fails_many request_1001 Check.block_id_length = true ∧
    first_failure mgr_fails_many request_1001 = some Check.ownership ∧
    (execute_verify mgr_fails_many (some []) request_1001).deny_job = true ∧
    (execute_verify mgr_fails_many (some []) request_1001).stderr =
      [Msg.wrong_uid 10 0 1000 1001] ∧
    execute_verify mgr_no_fetch (some []) request_1001 =
      execute_verify mgr_fails_many (some []) request_1001 :=
  ⟨by decide, by decide, by decide, by decide, by decide, by decide,
   (C19_earliest_failing_check_decides mgr_fails_many mgr_no_fetch (some [])
      request_1001).2.2 Check.ownership (by decide)
      (fun _ => ⟨rfl, by simp [agree_upto, check_index, check_order, List.indexOf_cons]⟩)⟩

/-- C20: the first cells copied into `geo` and `start_coords` are 16-bit
values, so they are never `NO_VAL`; the callback never writes the no-corner
or the no-shape line, the two tests against `NO_VAL` never fail, and when
the geometry fetch and the start-location fetch of the step both succeed,
whatever they return, none of the four lines on the topology of a
sub-block is written. -/
theorem C20_no_val_tests_never_fail (mgr : Manager) (runjob_list : Option (List runjob_job_t))
    (verify : Verify) (tmp_uint16 : Uint16Buf) :
    (copy_dims unset_dims tmp_uint16).getD 0 0 ≤ 65535 ∧
    (copy_dims unset_dims tmp_uint16).getD 0 0 ≠ NO_VAL ∧
    Msg.no_corner ∉ (execute_verify mgr runjob_list verify).stderr ∧
    Msg.no_shape ∉ (execute_verify mgr runjob_list verify).stderr ∧
    check_fails mgr verify Check.missing_corner = false ∧
    check_fails mgr verify Check.missing_shape = false ∧
    (∀ step, first_step mgr verify = some step →
      step.select_jobinfo.geometry.isSome = true →
      step.select_jobinfo.conn_type.isSome = true →
      ∀ m ∈ (execute_verify mgr runjob_list verify).stderr,
        m ≠ Msg.cant_get_geo ∧ m ≠ Msg.cant_get_start_loc ∧
        m ≠ Msg.no_corner ∧ m ≠ Msg.no_shape) := by
  have hcorner : Msg.no_corner ∉ (execute_verify mgr runjob_list verify).stderr := by
    intro hm
    obtain ⟨c, hff, hmem⟩ := stderr_of_first_failure mgr runjob_list verify _ hm
    have hc := (check_of_message mgr verify c).1 hmem
    subst hc
    have := first_failure_fails mgr verify _ hff
    rw [check_fails_missing_corner] at this
    exact absurd this (by decide)
  have hshape : Msg.no_shape ∉ (execute_verify mgr runjob_list verify).stderr := by
    intro hm
    obtain ⟨c, hff, hmem⟩ := stderr_of_first_failure mgr runjob_list verify _ hm
    have hc := (check_of_message mgr verify c).2.1 hmem
    subst hc
    have := first_failure_fails mgr verify _ hff
    rw [check_fails_missing_shape] at this
    exact absurd this (by decide)
  have hval := uint16_ne_NO_VAL tmp_uint16
  have hlt : tmp_uint16.vals.getD 0 0 ≤ 65535 := by
    obtain ⟨vals, hlen, hu⟩ := tmp_uint16
    match vals, hlen with
    | [a, b, c, d, e], _ =>
      have := hu a (by simp)
      simp only [List.getD_cons_zero]
      omega
  refine ⟨by rw [copy_dims_unset]; exact hlt, by rw [copy_dims_unset]; exact hval,
    hcorner, hshape, check_fails_missing_corner mgr verify,
    check_fails_missing_shape mgr verify, ?_⟩
  intro step hfs hgeo hstart m hm
  refine ⟨?_, ?_, ?_, ?_⟩
  · intro hmeq
    subst hmeq
    obtain ⟨c, hff, hmem⟩ := stderr_of_first_failure mgr runjob_list verify _ hm
    have hc := (check_of_message mgr verify c).2.2.1 hmem
    subst hc
    have := first_failure_fails mgr verify _ hff
    simp only [check_fails, hfs, Bool.and_eq_true, Option.isNone_iff_eq_none] at this
    rw [this.2] at hgeo
    exact absurd hgeo (by decide)
  · intro hmeq
    subst hmeq
    obtain ⟨c, hff, hmem⟩ := stderr_of_first_failure mgr runjob_list verify _ hm
    have hc := (check_of_message mgr verify c).2.2.2 hmem
    subst hc
    have := first_failure_fails mgr verify _ hff
    simp only [check_fails, hfs, Bool.and_eq_true, Option.isNone_iff_eq_none] at this
    rw [this.2] at hstart
    exact absurd hstart (by decide)
  · intro hmeq
    subst hmeq
    exact hcorner hm
  · intro hmeq
    subst hmeq
    exact hshape hm

/-- C20, at a sub-block step whose geometry and start location are fetched
with the 16-bit value 65534 in every cell: the job is allowed, with that
shape and that corner. -/
theorem C20_no_val_tests_never_fail_witness :
    (execute_verify (sample_mgr 10 0 (step_sub (some (buf_all 65534 (by decide)))
        (some (buf_all 65534 (by decide))))) (some []) request_7).deny_job = false ∧
    (execute_verify (sample_mgr 10 0 (step_sub (some (buf_all 65534 (by decide)))
        (some (buf_all 65534 (by decide))))) (some []) request_7).verify.shape =
      some [65534, 65534, 65534, 65534, 65534] ∧
    ∀ m ∈ (execute_verify (sample_mgr 10 0 (step_sub (some (buf_all 65534 (by decide)))
        (some (buf_all 65534 (by decide))))) (some []) request_7).stderr,
      m ≠ Msg.cant_get_geo ∧ m ≠ Msg.cant_get_start_loc ∧
      m ≠ Msg.no_corner ∧ m ≠ Msg.no_shape :=
  ⟨by decide, by decide,
   (C20_no_val_tests_never_fail (sample_mgr 10 0 (step_sub (some (buf_all 65534 (by decide)))
        (some (buf_all 65534 (by decide))))) (some []) request_7
      (buf_all 65534 (by decide))).2.2.2.2.2.2
      (step_sub (some (buf_all 65534 (by decide))) (some (buf_all 65534 (by decide))))
      rfl rfl rfl⟩

end RunjobPlugin
